import Mathlib

/-!
Verification development for the resumable paginated fetch-and-checkpoint
pipeline of the steam-analyzer repository (src/backend.py).

The embedding models, faithfully to the source:
  - the filesystem state touched by the pipeline (the checkpoint folder
    TEMP_FOLDER and the raw-data folder JSON_FOLDER) as association lists
    keyed by the structured content of the generated filenames
    (appid, start date/time, target count, current count — the code builds
    the name from exactly these fields and recovers the base by
    rsplit, which corresponds to replacing the count field);
  - the helper _save_checkpoint_and_data as an event-emitting function
    (saveRun) whose events are applied in the order the source performs
    them, so that write ordering and mid-crash states are observable;
  - the pagination loop of get_all_steam_reviews as a fuel-indexed step
    function (loopStep / runLoop) over an explicit LoopState;
  - the resume/checkpoint-loading prologue (resumeLoad) and the final
    filename/cleanup epilogue, together as getAllSteamReviews.

Items are opaque to the core (it only counts them and detects emptiness),
so they are modelled as Nat.  Python truthiness of optional numbers and
strings is modelled by pyOrNat / natTruthy / strTruthy.  The os.path.join
call receiving None (a TypeError in the source) is modelled by saveRun
returning no names, which the loop turns into a crashed exit.
-/

/-- One fetched record; opaque payload, the core only counts these. -/
abbrev Item := Nat

/-- The transport-level failure kinds the source distinguishes
(requests.exceptions.Timeout, requests.exceptions.ConnectionError,
other RequestException, json.JSONDecodeError). -/
inductive TransportKind where
  | timeout
  | connectionError
  | otherRequestError
  | jsonDecodeError
deriving DecidableEq, Repr

/-- A parsed API response body:
success flag (data.get with key success, absent modelled as none),
reviews list, next cursor (data.get with key cursor), and the query
summary: none models an absent or empty query_summary dict (falsy in
Python), some t models a nonempty dict whose total_reviews entry is t. -/
structure SteamResponse where
  success : Option Nat
  reviews : List Item
  cursor : Option String
  querySummary : Option (Option Nat)
deriving DecidableEq, Repr

/-- Outcome of one page request: a transport-level exception, or a
successfully parsed response body. -/
inductive PageOutcome where
  | transportError (k : TransportKind)
  | response (d : SteamResponse)
deriving DecidableEq, Repr

/-- Structured content of a generated filename
f"{appid}_{date}_{time}_{target}_{count}_reviews.json" (and the
corresponding _checkpoint.json name): the appid, the start date/time
stamp, the target count, and the current count.  The rsplit base-update
in the source corresponds to replacing the count field. -/
structure FileKey where
  appid : Nat
  startStamp : Nat
  target : Nat
  count : Nat
deriving DecidableEq, Repr

/-- The checkpoint file payload written by _save_checkpoint_and_data. -/
structure CheckpointData where
  cursor : String
  rawDataFilename : Option FileKey
  appid : Nat
  targetCount : Nat
  currentCount : Nat
  startTime : Nat
deriving DecidableEq, Repr

/-- The metadata block of a raw-data (dataset) file. -/
structure RawMetadata where
  appid : Nat
  totalReviewsCollected : Nat
  pagesFetched : Nat
  targetCount : Nat
  startTime : Nat
deriving DecidableEq, Repr

/-- A raw-data (dataset artifact) file payload. -/
structure RawData where
  metadata : RawMetadata
  reviews : List Item
deriving DecidableEq, Repr

/-- Contents of a checkpoint file on disk; corrupt models a file whose
open or json.load raises (IOError / JSONDecodeError). -/
inductive CkptFile where
  | good (d : CheckpointData)
  | corrupt
deriving DecidableEq, Repr

/-- Contents of a raw-data file on disk; corrupt models a file whose
open or json.load raises. -/
inductive RawFile where
  | good (d : RawData)
  | corrupt
deriving DecidableEq, Repr

/-- Association-list lookup (first match). -/
def alistLookup {α : Type} (l : List (FileKey × α)) (k : FileKey) : Option α :=
  match l with
  | [] => none
  | (k1, v1) :: rest => if k1 = k then some v1 else alistLookup rest k

/-- Replace the value at a key in place, or append the pair when absent
(models overwriting a file, creating it when missing). -/
def alistWrite {α : Type} (l : List (FileKey × α)) (k : FileKey) (v : α) :
    List (FileKey × α) :=
  match l with
  | [] => [(k, v)]
  | (k1, v1) :: rest =>
      if k1 = k then (k, v) :: rest else (k1, v1) :: alistWrite rest k v

/-- Remove the entry at a key (models os.remove). -/
def alistRemove {α : Type} (l : List (FileKey × α)) (k : FileKey) :
    List (FileKey × α) :=
  match l with
  | [] => []
  | (k1, v1) :: rest =>
      if k1 = k then rest else (k1, v1) :: alistRemove rest k

/-- Move the entry at old to new (models os.rename; the source only calls
it after an existence check, and a pre-existing target is replaced). -/
def alistRename {α : Type} (l : List (FileKey × α)) (old new : FileKey) :
    List (FileKey × α) :=
  match alistLookup l old with
  | none => l
  | some v => alistWrite (alistRemove l old) new v

/-- The filesystem state the pipeline touches: temp is TEMP_FOLDER
(checkpoint files), json is JSON_FOLDER (raw-data files). -/
structure FS where
  temp : List (FileKey × CkptFile)
  json : List (FileKey × RawFile)
deriving DecidableEq, Repr

/-- The empty filesystem. -/
def fsEmpty : FS := ⟨[], []⟩

/-- One filesystem effect of _save_checkpoint_and_data or of the final
epilogue, in source order. -/
inductive FsEvent where
  | renameRaw (old new : FileKey)
  | renameCkpt (old new : FileKey)
  | writeCkpt (k : FileKey) (d : CheckpointData)
  | writeRaw (k : FileKey) (d : RawData)
  | removeCkpt (k : FileKey)
deriving DecidableEq, Repr

/-- Apply one filesystem event. -/
def applyEvent (fs : FS) : FsEvent → FS
  | .renameRaw old new => { fs with json := alistRename fs.json old new }
  | .renameCkpt old new => { fs with temp := alistRename fs.temp old new }
  | .writeCkpt k d => { fs with temp := alistWrite fs.temp k (.good d) }
  | .writeRaw k d => { fs with json := alistWrite fs.json k (.good d) }
  | .removeCkpt k => { fs with temp := alistRemove fs.temp k }

/-- Apply a list of filesystem events in order. -/
def applyEvents (fs : FS) (evs : List FsEvent) : FS :=
  evs.foldl applyEvent fs

/-- Python truthiness selection for optional numbers:
x if x else y (None and 0 are falsy). -/
def pyOrNat (a : Option Nat) (b : Nat) : Nat :=
  match a with
  | some n => if n = 0 then b else n
  | none => b

/-- Python truthiness of an optional number (None and 0 are falsy). -/
def natTruthy : Option Nat → Bool
  | some n => n != 0
  | none => false

/-- Python truthiness of an optional string (None and the empty string
are falsy). -/
def strTruthy : Option String → Bool
  | some s => s != ""
  | none => false

/-- The checkpoint payload _save_checkpoint_and_data writes. -/
def mkCheckpointData (cursor : String) (rawK : FileKey) (appid : Nat)
    (finalTarget : Nat) (count : Nat) (startTime : Nat) : CheckpointData :=
  ⟨cursor, some rawK, appid, finalTarget, count, startTime⟩

/-- The raw-data payload _save_checkpoint_and_data writes. -/
def mkRawData (appid : Nat) (reviews : List Item) (pageCount : Nat)
    (finalTarget : Nat) (startTime : Nat) : RawData :=
  ⟨⟨appid, reviews.length, pageCount, finalTarget, startTime⟩, reviews⟩

/-- Result of one _save_checkpoint_and_data call: the filesystem events
it performed (in source order) and, on normal return, the new
(raw_data_filename, checkpoint_filename) pair.  names = none models the
uncaught TypeError raised by os.path.join(TEMP_FOLDER, None) when
checkpoint_filename is None while raw_data_filename is set; the events
already performed before that point (the raw-file rename) are kept. -/
structure SaveResult where
  events : List FsEvent
  names : Option (FileKey × FileKey)
deriving DecidableEq, Repr

/-- Faithful embedding of _save_checkpoint_and_data (src/backend.py,
lines 74-143).  Arguments follow the source signature; rawK and ckptK
are the in-memory raw_data_filename and checkpoint_filename. -/
def saveRun (appid : Nat) (allReviews : List Item) (cursor : String)
    (startTime : Nat) (targetCount : Option Nat) (pageCount : Nat)
    (totalAvailable : Option Nat) (rawK ckptK : Option FileKey)
    (fs : FS) : SaveResult :=
  let n := allReviews.length
  let finalTarget := pyOrNat targetCount (pyOrNat totalAvailable n)
  match rawK with
  | none =>
      -- first checkpoint: generate both names from
      -- {appid, start date/time, target, current count}
      let target := pyOrNat targetCount (pyOrNat totalAvailable 0)
      let k : FileKey := ⟨appid, startTime, target, n⟩
      { events := [.writeCkpt k (mkCheckpointData cursor k appid finalTarget n startTime),
                   .writeRaw k (mkRawData appid allReviews pageCount finalTarget startTime)],
        names := some (k, k) }
  | some oldRaw =>
      -- update the count suffix of the existing names (rsplit base)
      let newRaw : FileKey := { oldRaw with count := n }
      let rawEvs : List FsEvent :=
        if (alistLookup fs.json oldRaw).isSome && oldRaw != newRaw
        then [.renameRaw oldRaw newRaw] else []
      match ckptK with
      | none =>
          -- os.path.join(TEMP_FOLDER, None): TypeError after the raw
          -- rename already happened
          { events := rawEvs, names := none }
      | some oldCkpt =>
          let newCkpt : FileKey := { oldRaw with count := n }
          let ckptEvs : List FsEvent :=
            if (alistLookup fs.temp oldCkpt).isSome && oldCkpt != newCkpt
            then [.renameCkpt oldCkpt newCkpt] else []
          { events := rawEvs ++ ckptEvs ++
              [.writeCkpt newCkpt (mkCheckpointData cursor newRaw appid finalTarget n startTime),
               .writeRaw newRaw (mkRawData appid allReviews pageCount finalTarget startTime)],
            names := some (newRaw, newCkpt) }

/-- The mutable state of the pagination loop in get_all_steam_reviews:
accumulated reviews, current cursor, page counter, the in-memory
raw_data_filename and checkpoint_filename, the total_reviews_available
learned from the API, the number of cancellation-flag reads performed so
far (the flag is read once at the top of each iteration), and the
filesystem. -/
structure LoopState where
  allReviews : List Item
  cursor : String
  pageCount : Nat
  rawK : Option FileKey
  ckptK : Option FileKey
  totalAvail : Option Nat
  iter : Nat
  fs : FS
deriving DecidableEq, Repr

/-- How the pagination loop ended.  crashed models an uncaught TypeError
from os.path.join(TEMP_FOLDER, None) propagating out of the function;
fuelOut is a model artifact for exhausted fuel. -/
inductive LoopExit where
  | cancelled
  | crashed
  | apiFail
  | transportFail (k : TransportKind)
  | completedAll
  | emptyStop
  | noNewCursor
  | maxPagesStop
  | fuelOut
deriving DecidableEq, Repr

/-- Result of one loop iteration: continue with a new state, or leave
the loop in a final state with an exit tag. -/
inductive StepRes where
  | cont (s : LoopState)
  | halt (s : LoopState) (e : LoopExit)
deriving DecidableEq, Repr

/-- Faithful embedding of one iteration of the pagination loop of
get_all_steam_reviews (src/backend.py, lines 228-362), including the
while condition.  cancel is read at index s.iter, modelling the value of
cancel_event.is_set() at the top of this iteration. -/
def loopStep (api : String → PageOutcome) (cancel : Nat → Bool)
    (appid : Nat) (maxPages targetCount : Option Nat) (startTime : Nat)
    (s : LoopState) : StepRes :=
  -- while not (max_pages is not None and page_count >= max_pages)
  if (match maxPages with | some m => decide (m ≤ s.pageCount) | none => false)
  then .halt s .maxPagesStop
  else if cancel s.iter then
    -- save checkpoint on cancellation; the returned names are discarded
    -- by the source on this path
    let r := saveRun appid s.allReviews s.cursor startTime targetCount
               s.pageCount s.totalAvail s.rawK s.ckptK s.fs
    .halt { s with fs := applyEvents s.fs r.events, iter := s.iter + 1 }
      (match r.names with | some _ => .cancelled | none => .crashed)
  else
    match api s.cursor with
    | .transportError k =>
        let r := saveRun appid s.allReviews s.cursor startTime targetCount
                   s.pageCount s.totalAvail s.rawK s.ckptK s.fs
        match r.names with
        | none =>
            .halt { s with fs := applyEvents s.fs r.events, iter := s.iter + 1 } .crashed
        | some (rk, ck) =>
            .halt { s with fs := applyEvents s.fs r.events, rawK := some rk,
                           ckptK := some ck, iter := s.iter + 1 }
              (.transportFail k)
    | .response d =>
        if d.success ≠ some 1 then
          .halt { s with iter := s.iter + 1 } .apiFail
        else
          -- total_reviews_available is taken from the first response
          -- carrying a nonempty query_summary
          let tav := if s.totalAvail = none then
                       (match d.querySummary with
                        | some t => t
                        | none => s.totalAvail)
                     else s.totalAvail
          if d.reviews.isEmpty then
            if natTruthy tav && decide (tav.getD 0 ≤ s.allReviews.length) then
              .halt { s with totalAvail := tav, iter := s.iter + 1 } .completedAll
            else
              let r := saveRun appid s.allReviews s.cursor startTime targetCount
                         s.pageCount tav s.rawK s.ckptK s.fs
              match r.names with
              | none =>
                  .halt { s with fs := applyEvents s.fs r.events,
                                 totalAvail := tav, iter := s.iter + 1 } .crashed
              | some (rk, ck) =>
                  .halt { s with fs := applyEvents s.fs r.events, rawK := some rk,
                                 ckptK := some ck, totalAvail := tav,
                                 iter := s.iter + 1 } .emptyStop
          else
            let all := s.allReviews ++ d.reviews
            let pc := s.pageCount + 1
            if natTruthy tav && decide (tav.getD 0 ≤ all.length) then
              .halt { s with allReviews := all, pageCount := pc,
                             totalAvail := tav, iter := s.iter + 1 } .completedAll
            else if strTruthy d.cursor && (d.cursor.getD "" != s.cursor) then
              let c := d.cursor.getD ""
              -- checkpoint every CHECKPOINT_INTERVAL_PAGES = 50 pages
              if pc % 50 = 0 then
                let r := saveRun appid all c startTime targetCount
                           pc tav s.rawK s.ckptK s.fs
                match r.names with
                | none =>
                    .halt { s with allReviews := all, cursor := c, pageCount := pc,
                                   fs := applyEvents s.fs r.events,
                                   totalAvail := tav, iter := s.iter + 1 } .crashed
                | some (rk, ck) =>
                    .cont { s with allReviews := all, cursor := c, pageCount := pc,
                                   fs := applyEvents s.fs r.events, rawK := some rk,
                                   ckptK := some ck, totalAvail := tav,
                                   iter := s.iter + 1 }
              else
                .cont { s with allReviews := all, cursor := c, pageCount := pc,
                               totalAvail := tav, iter := s.iter + 1 }
            else
              .halt { s with allReviews := all, pageCount := pc,
                             totalAvail := tav, iter := s.iter + 1 } .noNewCursor

/-- Run the pagination loop for at most fuel iterations. -/
def runLoop (api : String → PageOutcome) (cancel : Nat → Bool)
    (appid : Nat) (maxPages targetCount : Option Nat) (startTime : Nat) :
    Nat → LoopState → LoopState × LoopExit
  | 0, s => (s, .fuelOut)
  | fuel + 1, s =>
      match loopStep api cancel appid maxPages targetCount startTime s with
      | .cont s1 => runLoop api cancel appid maxPages targetCount startTime fuel s1
      | .halt s1 e => (s1, e)

/-- The run configuration produced by the resume/fresh-start prologue:
initial review buffer, cursor, start time, raw_data_filename, and
target_count (checkpoint_filename is NOT part of it: the source never
restores it). -/
structure InitState where
  reviews : List Item
  cursor : String
  startTime : Nat
  rawK : Option FileKey
  targetCount : Option Nat
deriving DecidableEq, Repr

/-- A fresh run: empty buffer, sentinel cursor, current time, no
filenames, no target. -/
def freshInit (now : Nat) : InitState := ⟨[], "*", now, none, none⟩

/-- The checkpoint-file selection of the resume prologue (src/backend.py,
lines 179-182): filter the directory listing of TEMP_FOLDER to names
that start with the appid and end in _checkpoint.json, and take the
FIRST entry of the (unsorted) listing. -/
def findCheckpointKey (fs : FS) (appid : Nat) : Option FileKey :=
  ((fs.temp.map Prod.fst).filter (fun k => k.appid == appid)).head?

/-- Faithful embedding of the checkpoint-loading prologue of
get_all_steam_reviews (src/backend.py, lines 176-208).  A corrupt
checkpoint file (json.load raises) resets everything to a fresh run; a
corrupt raw-data file resets the buffer, cursor, start time and
raw_data_filename but, as in the source, leaves target_count as loaded
from the checkpoint. -/
def resumeLoad (fs : FS) (appid : Nat) (now : Nat) : InitState :=
  match findCheckpointKey fs appid with
  | none => freshInit now
  | some key =>
      match alistLookup fs.temp key with
      | none => freshInit now
      | some .corrupt => freshInit now
      | some (.good cd) =>
          match cd.rawDataFilename with
          | none => ⟨[], cd.cursor, cd.startTime, none, some cd.targetCount⟩
          | some rk =>
              match alistLookup fs.json rk with
              | none => ⟨[], cd.cursor, cd.startTime, some rk, some cd.targetCount⟩
              | some (.good rd) =>
                  ⟨rd.reviews, cd.cursor, cd.startTime, some rk, some cd.targetCount⟩
              | some .corrupt =>
                  ⟨[], "*", now, none, some cd.targetCount⟩

/-- The loop state get_all_steam_reviews enters the pagination loop
with: page_count is derived as len(all_reviews) // 100, and the
in-memory checkpoint_filename starts as None in every case. -/
def initLoopState (ist : InitState) (fs0 : FS) : LoopState :=
  { allReviews := ist.reviews, cursor := ist.cursor,
    pageCount := ist.reviews.length / 100,
    rawK := ist.rawK, ckptK := none, totalAvail := none,
    iter := 0, fs := fs0 }

/-- Result of one get_all_steam_reviews invocation: the loop exit, the
returned final data (none when cancelled or when the TypeError
propagated), and the filesystem when the invocation returns. -/
structure RunResult where
  exit : LoopExit
  finalData : Option RawData
  fs : FS
deriving DecidableEq, Repr

/-- Faithful embedding of get_all_steam_reviews (src/backend.py, lines
146-410): resume/fresh prologue, pagination loop, final filename
regeneration (which renames only the raw-data file, not the checkpoint
file), final data assembly, and the checkpoint deletion guarded only by
the cancellation flag. -/
def getAllSteamReviews (api : String → PageOutcome) (cancel : Nat → Bool)
    (appid : Nat) (maxPages : Option Nat) (resume : Bool) (fs0 : FS)
    (now : Nat) (fuel : Nat) : RunResult :=
  let ist := if resume then resumeLoad fs0 appid now else freshInit now
  let p := runLoop api cancel appid maxPages ist.targetCount ist.startTime fuel
             (initLoopState ist fs0)
  let s := p.1
  match p.2 with
  | .cancelled => { exit := .cancelled, finalData := none, fs := s.fs }
  | .crashed => { exit := .crashed, finalData := none, fs := s.fs }
  | .fuelOut => { exit := .fuelOut, finalData := none, fs := s.fs }
  | e =>
      let n := s.allReviews.length
      let finalTarget := pyOrNat ist.targetCount (pyOrNat s.totalAvail n)
      let q : FileKey × FileKey × FS :=
        match s.rawK with
        | none =>
            -- generate final filenames; nothing written
            let k : FileKey := ⟨appid, ist.startTime, finalTarget, n⟩
            (k, k, s.fs)
        | some oldRaw =>
            -- update the count suffix; rename only the raw-data file
            let newRaw : FileKey := { oldRaw with count := n }
            let fs1 := if (alistLookup s.fs.json oldRaw).isSome && oldRaw != newRaw
                       then { s.fs with json := alistRename s.fs.json oldRaw newRaw }
                       else s.fs
            (newRaw, { oldRaw with count := n }, fs1)
      let finalData : RawData :=
        ⟨⟨appid, n, s.pageCount, finalTarget, ist.startTime⟩, s.allReviews⟩
      -- if not cancel_event.is_set(): delete the checkpoint file
      let fs2 := if cancel s.iter then q.2.2
                 else if (alistLookup q.2.2.temp q.2.1).isSome
                      then { q.2.2 with temp := alistRemove q.2.2.temp q.2.1 }
                      else q.2.2
      { exit := e, finalData := some finalData, fs := fs2 }

/-- API model for the C1 scenario: one successful page of one item with
an advancing cursor, then a timeout on every later page. -/
def apiTimeoutSecondPage : String → PageOutcome := fun c =>
  if c = "*" then .response ⟨some 1, [7], some "A", none⟩
  else .transportError .timeout

/-- C1: the claim says a run stopped by a transport error leaves a
checkpoint file for the target id on disk, paired with the dataset.
The code does save the checkpoint in the timeout handler, but the final
cleanup (src/backend.py line 404) is guarded only by the cancellation
flag, not by the error exit, so the just-saved checkpoint is deleted
again before the invocation returns: after a run with one successful
page of one item and then a timeout, the checkpoint folder is empty
while the dataset file holds the one accumulated item.  This contradicts
the source comment (not cancelled, not error) and the saved-checkpoint
status messages, so the code, not the claim, is wrong. -/
theorem c1_transport_error_checkpoint_deleted :
    getAllSteamReviews apiTimeoutSecondPage (fun _ => false) 20 none false fsEmpty 0 10 =
      { exit := .transportFail .timeout,
        finalData := some ⟨⟨20, 1, 1, 1, 0⟩, [7]⟩,
        fs := { temp := [],
                json := [(⟨20, 0, 0, 1⟩, .good ⟨⟨20, 1, 1, 1, 0⟩, [7]⟩)] } } := by
  decide

/-- API model for the C2 scenario: page 1 returns one item and an
advancing cursor, page 2 returns an empty items list with an ADVANCING
cursor (the transient gap of the claim), page 3 would return item 5. -/
def apiTransientGap : String → PageOutcome := fun c =>
  if c = "*" then .response ⟨some 1, [1], some "B", none⟩
  else if c = "B" then .response ⟨some 1, [], some "C", none⟩
  else .response ⟨some 1, [5], some "C", none⟩

/-- C2 counterexample: the claim says an empty items list with a changed
cursor is a transient gap and the run continues to the next page,
including its items in the final dataset.  On the code, the run stops at
the empty page 2 (exit emptyStop, src/backend.py line 301 breaks on
every empty page), and the final dataset is [1]: item 5 from page 3 is
never fetched.  (The checkpoint saved at the empty page is then deleted
again by the cleanup of line 404, hence the empty temp folder.) -/
theorem c2_counterexample :
    getAllSteamReviews apiTransientGap (fun _ => false) 40 none false fsEmpty 0 10 =
      { exit := .emptyStop,
        finalData := some ⟨⟨40, 1, 1, 1, 0⟩, [1]⟩,
        fs := { temp := [],
                json := [(⟨40, 0, 0, 1⟩, .good ⟨⟨40, 1, 1, 1, 0⟩, [1]⟩)] } } := by
  decide

/-- API model for the C5 scenario: pages 1..50 each return one item with
an advancing numeric cursor, page 51 returns one item with a stagnant
cursor, so the run completes with 51 items after an interval checkpoint
was written at page 50 with 50 items. -/
def apiFiftyOnePages : String → PageOutcome := fun c =>
  let n := if c = "*" then 0 else c.data.length
  if n < 50 then
    .response ⟨some 1, [n], some (String.mk (List.replicate (n + 1) 'x')), none⟩
  else .response ⟨some 1, [n], some (String.mk (List.replicate n 'x')), none⟩

/-- C5: the claim says a run reaching the Completed terminal state
deletes any checkpoint written during the run.  The code intends this
(comment and status message at src/backend.py lines 403-408), but the
final block recomputes the checkpoint filename with the FINAL count
while the file on disk still carries the count of the last checkpoint
(only the raw-data file is renamed, lines 383-387), so when items were
accumulated after the last interval checkpoint the deletion misses and
the stale checkpoint file remains: after 50 pages (interval checkpoint
at 50 items) plus one further page and cursor stagnation, the run exits
Completed with 51 items yet the count-50 checkpoint file is still on
disk. -/
theorem c5_completed_run_leaves_stale_checkpoint :
    (getAllSteamReviews apiFiftyOnePages (fun _ => false) 30 none false fsEmpty 0 60).exit
        = .noNewCursor ∧
    (getAllSteamReviews apiFiftyOnePages (fun _ => false) 30 none false fsEmpty 0 60).finalData
        = some ⟨⟨30, 51, 51, 51, 0⟩, List.range 51⟩ ∧
    (getAllSteamReviews apiFiftyOnePages (fun _ => false) 30 none false fsEmpty 0 60).fs.temp
        = [(⟨30, 0, 0, 50⟩,
            .good ⟨String.mk (List.replicate 50 'x'), some ⟨30, 0, 0, 50⟩, 30, 50, 50, 0⟩)] := by
  refine ⟨by decide, ?_, by decide⟩
  decide

/-- A checkpoint folder listing with two checkpoint files for the same
appid 7: the first in listing order stems from the run started at stamp
1 (the OLDER run), the second from the run started at stamp 9 (the most
recent run). -/
def fsTwoCheckpoints : FS :=
  ⟨[(⟨7, 1, 0, 5⟩, .good ⟨"c1", some ⟨7, 1, 0, 5⟩, 7, 0, 5, 1⟩),
    (⟨7, 9, 0, 3⟩, .good ⟨"c2", some ⟨7, 9, 0, 3⟩, 7, 0, 3, 9⟩)], []⟩

/-- C10: the claim (and the source comment at src/backend.py line 181,
Use the most recent checkpoint) says resume selects the most recent of
the checkpoint files matching the target id.  The code takes
checkpoint_files[0] of the unsorted os.listdir result (line 182) — the
first matching entry of the directory listing in whatever order the
OS returns it.  With two checkpoints for appid 7 where the older run
(start stamp 1) is listed first, the selection returns the stamp-1
checkpoint even though the stamp-9 one is the most recent; no sorting
by recency exists in the source. -/
theorem c10_resume_takes_first_listing_entry :
    findCheckpointKey fsTwoCheckpoints 7 = some ⟨7, 1, 0, 5⟩ ∧
    (⟨7, 9, 0, 3⟩ : FileKey) ∈ fsTwoCheckpoints.temp.map Prod.fst ∧
    (1 : Nat) < 9 := by
  decide

/-- C3 counterexample: the claim says the dataset artifact is written
before the checkpoint file within each save, so no intermediate point
has a checkpoint recording more items than the dataset holds.  In the
source the checkpoint is written first (src/backend.py lines 111-124)
and the raw data after (lines 126-141): for a first save of one review
into an empty filesystem the event sequence is exactly
[writeCkpt, writeRaw], and after only the first event the checkpoint
folder records accumulated count 1 while the referenced dataset file
does not exist at all (the json folder is empty). -/
theorem c3_counterexample :
    (saveRun 60 [3] "*" 0 none 0 none none none fsEmpty).events =
      [.writeCkpt ⟨60, 0, 0, 1⟩ ⟨"*", some ⟨60, 0, 0, 1⟩, 60, 1, 1, 0⟩,
       .writeRaw ⟨60, 0, 0, 1⟩ ⟨⟨60, 1, 0, 1, 0⟩, [3]⟩] ∧
    (applyEvents fsEmpty
        [.writeCkpt ⟨60, 0, 0, 1⟩ ⟨"*", some ⟨60, 0, 0, 1⟩, 60, 1, 1, 0⟩]).temp =
      [(⟨60, 0, 0, 1⟩, .good ⟨"*", some ⟨60, 0, 0, 1⟩, 60, 1, 1, 0⟩)] ∧
    (applyEvents fsEmpty
        [.writeCkpt ⟨60, 0, 0, 1⟩ ⟨"*", some ⟨60, 0, 0, 1⟩, 60, 1, 1, 0⟩]).json = [] := by
  decide

/-- API model for the C6 counterexample: the total-available count 2 is
reported only on the first page (cursor sentinel), as the real API does;
pages beyond the total exist and the cursor stagnates at b. -/
def apiTotalFirstPageOnly : String → PageOutcome := fun c =>
  if c = "*" then .response ⟨some 1, [1], some "a", some (some 2)⟩
  else if c = "a" then .response ⟨some 1, [2], some "b", none⟩
  else .response ⟨some 1, [3], some "b", none⟩

/-- C6 counterexample: the claim says that against a deterministic API a
straight run to completion and a cancelled-then-resumed run yield
datasets with identical item counts and ordering.  With a deterministic
API that reports total-available 2 only on the first page, the straight
run stops at the total with items [1, 2]; the run cancelled after page 1
checkpoints {cursor a, [1]}; the resumed run re-enters with
total_reviews_available reset to None (the checkpoint does not store
it), never sees the total again, keeps fetching past it, and completes
by cursor stagnation with items [1, 2, 3] — both invocations complete,
but the counts differ (2 versus 3). -/
theorem c6_counterexample :
    (getAllSteamReviews apiTotalFirstPageOnly (fun _ => false) 50 none false
        fsEmpty 0 10).finalData = some ⟨⟨50, 2, 2, 2, 0⟩, [1, 2]⟩ ∧
    (getAllSteamReviews apiTotalFirstPageOnly (fun i => decide (1 ≤ i)) 50 none false
        fsEmpty 0 10).exit = .cancelled ∧
    (getAllSteamReviews apiTotalFirstPageOnly (fun _ => false) 50 none true
        (getAllSteamReviews apiTotalFirstPageOnly (fun i => decide (1 ≤ i)) 50 none false
          fsEmpty 0 10).fs 0 10).exit = .noNewCursor ∧
    (getAllSteamReviews apiTotalFirstPageOnly (fun _ => false) 50 none true
        (getAllSteamReviews apiTotalFirstPageOnly (fun i => decide (1 ≤ i)) 50 none false
          fsEmpty 0 10).fs 0 10).finalData = some ⟨⟨50, 3, 2, 2, 0⟩, [1, 2, 3]⟩ ∧
    ([1, 2] : List Item).length ≠ ([1, 2, 3] : List Item).length := by
  decide

/-- Looking up the key just written yields the written value. -/
theorem alistLookup_write_self {α : Type} (l : List (FileKey × α)) (k : FileKey)
    (v : α) : alistLookup (alistWrite l k v) k = some v := by
  induction l with
  | nil => simp [alistWrite, alistLookup]
  | cons hd tl ih =>
      obtain ⟨k1, v1⟩ := hd
      by_cases h : k1 = k
      · simp [alistWrite, alistLookup, h]
      · simp [alistWrite, alistLookup, h, ih]

/-- applyEvents distributes over list concatenation. -/
theorem applyEvents_append (fs : FS) (a b : List FsEvent) :
    applyEvents fs (a ++ b) = applyEvents (applyEvents fs a) b := by
  simp [applyEvents, List.foldl_append]

/-- C4: whenever _save_checkpoint_and_data returns normally (a checkpoint
was written), the checkpoint file at the returned checkpoint name and
the dataset file at the returned raw-data name exist after the save, the
dataset holds exactly the accumulated review list, and the accumulated
count recorded in the checkpoint equals the number of items in that
dataset.  This covers every checkpoint written during a run (50-page
interval, cancellation, empty page, transport error), since all of them
go through this helper. -/
theorem c4_checkpoint_count_matches_dataset (appid : Nat) (allReviews : List Item)
    (cursor : String) (startTime : Nat) (targetCount : Option Nat)
    (pageCount : Nat) (totalAvailable : Option Nat) (rawK ckptK : Option FileKey)
    (fs : FS) (rk ck : FileKey)
    (h : (saveRun appid allReviews cursor startTime targetCount pageCount
            totalAvailable rawK ckptK fs).names = some (rk, ck)) :
    ∃ cd rd,
      alistLookup (applyEvents fs (saveRun appid allReviews cursor startTime
          targetCount pageCount totalAvailable rawK ckptK fs).events).temp ck
        = some (.good cd) ∧
      alistLookup (applyEvents fs (saveRun appid allReviews cursor startTime
          targetCount pageCount totalAvailable rawK ckptK fs).events).json rk
        = some (.good rd) ∧
      cd.currentCount = rd.reviews.length ∧
      rd.reviews = allReviews := by
  match hr : rawK with
  | none =>
      refine ⟨mkCheckpointData cursor ⟨appid, startTime,
          pyOrNat targetCount (pyOrNat totalAvailable 0), allReviews.length⟩ appid
          (pyOrNat targetCount (pyOrNat totalAvailable allReviews.length))
          allReviews.length startTime,
        mkRawData appid allReviews pageCount
          (pyOrNat targetCount (pyOrNat totalAvailable allReviews.length)) startTime,
        ?_, ?_, rfl, rfl⟩ <;>
      · simp only [saveRun] at h ⊢
        simp only [Option.some.injEq, Prod.mk.injEq] at h
        simp [applyEvents, applyEvent, ← h.1, ← h.2, alistLookup_write_self,
              mkCheckpointData, mkRawData]
  | some oldRaw =>
      match hc : ckptK with
      | none => simp [saveRun] at h
      | some oldCkpt =>
          simp only [saveRun, Option.some.injEq, Prod.mk.injEq] at h
          refine ⟨mkCheckpointData cursor { oldRaw with count := allReviews.length }
              appid (pyOrNat targetCount (pyOrNat totalAvailable allReviews.length))
              allReviews.length startTime,
            mkRawData appid allReviews pageCount
              (pyOrNat targetCount (pyOrNat totalAvailable allReviews.length)) startTime,
            ?_, ?_, rfl, rfl⟩ <;>
          · simp only [saveRun]
            rw [applyEvents_append, applyEvents_append]
            simp [applyEvents, applyEvent, ← h.1, ← h.2, alistLookup_write_self,
                  mkCheckpointData, mkRawData]

/-- Witness for C4 at a concrete save: one review, fresh names, empty
filesystem. -/
theorem c4_witness :
    ∃ cd rd,
      alistLookup (applyEvents fsEmpty (saveRun 1 [4] "*" 0 none 0
          none none none fsEmpty).events).temp ⟨1, 0, 0, 1⟩
        = some (.good cd) ∧
      alistLookup (applyEvents fsEmpty (saveRun 1 [4] "*" 0 none 0
          none none none fsEmpty).events).json ⟨1, 0, 0, 1⟩
        = some (.good rd) ∧
      cd.currentCount = rd.reviews.length ∧
      rd.reviews = [4] :=
  c4_checkpoint_count_matches_dataset 1 [4] "*" 0 none 0 none none none fsEmpty
    ⟨1, 0, 0, 1⟩ ⟨1, 0, 0, 1⟩ (by decide)

/-- Whether a filesystem event is a rename (no file content written). -/
def isRenameEvent : FsEvent → Bool
  | .renameRaw _ _ => true
  | .renameCkpt _ _ => true
  | _ => false

/-- C3 amended: within every single checkpoint-save operation that
returns normally, the CHECKPOINT file is written before the dataset
artifact file (the reverse of the claimed order): the event sequence is
a possibly-empty prefix of pure renames followed by exactly the
checkpoint write and then the dataset write.  Consequently a crash
between the two writes leaves a checkpoint recording an accumulated
count that can exceed the number of items in the dataset it references,
never the other way around. -/
theorem c3_amended (appid : Nat) (allReviews : List Item) (cursor : String)
    (startTime : Nat) (targetCount : Option Nat) (pageCount : Nat)
    (totalAvailable : Option Nat) (rawK ckptK : Option FileKey) (fs : FS)
    (rk ck : FileKey)
    (h : (saveRun appid allReviews cursor startTime targetCount pageCount
            totalAvailable rawK ckptK fs).names = some (rk, ck)) :
    ∃ pre cd rd,
      (saveRun appid allReviews cursor startTime targetCount pageCount
          totalAvailable rawK ckptK fs).events =
        pre ++ [.writeCkpt ck cd, .writeRaw rk rd] ∧
      (∀ e ∈ pre, isRenameEvent e = true) ∧
      cd.currentCount = allReviews.length ∧
      rd.reviews = allReviews := by
  match hr : rawK with
  | none =>
      simp only [saveRun] at h ⊢
      simp only [Option.some.injEq, Prod.mk.injEq] at h
      refine ⟨[], mkCheckpointData cursor ⟨appid, startTime,
          pyOrNat targetCount (pyOrNat totalAvailable 0), allReviews.length⟩ appid
          (pyOrNat targetCount (pyOrNat totalAvailable allReviews.length))
          allReviews.length startTime,
        mkRawData appid allReviews pageCount
          (pyOrNat targetCount (pyOrNat totalAvailable allReviews.length)) startTime,
        ?_, ?_, rfl, rfl⟩
      · simp [← h.1, ← h.2]
      · intro e he
        simp at he
  | some oldRaw =>
      match hc : ckptK with
      | none => simp [saveRun] at h
      | some oldCkpt =>
          simp only [saveRun, Option.some.injEq, Prod.mk.injEq] at h
          refine ⟨(if (alistLookup fs.json oldRaw).isSome && oldRaw != { oldRaw with count := allReviews.length }
                   then [FsEvent.renameRaw oldRaw { oldRaw with count := allReviews.length }] else []) ++
                  (if (alistLookup fs.temp oldCkpt).isSome && oldCkpt != { oldRaw with count := allReviews.length }
                   then [FsEvent.renameCkpt oldCkpt { oldRaw with count := allReviews.length }] else []),
              mkCheckpointData cursor { oldRaw with count := allReviews.length }
                appid (pyOrNat targetCount (pyOrNat totalAvailable allReviews.length))
                allReviews.length startTime,
              mkRawData appid allReviews pageCount
                (pyOrNat targetCount (pyOrNat totalAvailable allReviews.length)) startTime,
              ?_, ?_, rfl, rfl⟩
          · simp only [saveRun, ← h.1, ← h.2, List.append_assoc]
          · intro e he
            rcases List.mem_append.mp he with h1 | h1 <;>
            · split at h1 <;> simp_all [isRenameEvent]

/-- Witness for C3 amended at a concrete save with existing names. -/
theorem c3_amended_witness :
    ∃ pre cd rd,
      (saveRun 2 [4, 5] "B" 0 none 1 none (some ⟨2, 0, 0, 1⟩)
          (some ⟨2, 0, 0, 1⟩) fsEmpty).events =
        pre ++ [.writeCkpt ⟨2, 0, 0, 2⟩ cd, .writeRaw ⟨2, 0, 0, 2⟩ rd] ∧
      (∀ e ∈ pre, isRenameEvent e = true) ∧
      cd.currentCount = 2 ∧
      rd.reviews = [4, 5] :=
  c3_amended 2 [4, 5] "B" 0 none 1 none (some ⟨2, 0, 0, 1⟩) (some ⟨2, 0, 0, 1⟩)
    fsEmpty ⟨2, 0, 0, 2⟩ ⟨2, 0, 0, 2⟩ (by decide)

/-- Whether a step result left the loop. -/
def StepRes.isHalt : StepRes → Bool
  | .halt _ _ => true
  | .cont _ => false

/-- The state carried by a step result. -/
def StepRes.state : StepRes → LoopState
  | .halt s _ => s
  | .cont s => s

/-- C2 amended: on every loop iteration whose page fetch succeeds but
returns an empty items list, the loop terminates in that iteration
REGARDLESS of whether the cursor advanced — the source breaks on every
empty page (src/backend.py line 286-301).  When the accumulated count
has reached a truthy total the run completes; otherwise it saves a
checkpoint and stops (or aborts when the save raises); it never adopts
the new cursor and continues, so items on later pages are not included. -/
theorem c2_amended (api : String → PageOutcome) (cancel : Nat → Bool)
    (appid : Nat) (maxPages targetCount : Option Nat) (startTime : Nat)
    (s : LoopState) (d : SteamResponse)
    (hapi : api s.cursor = .response d) (hsucc : d.success = some 1)
    (hempty : d.reviews = []) (hcancel : cancel s.iter = false)
    (hmp : (match maxPages with
            | some m => decide (m ≤ s.pageCount)
            | none => false) = false) :
    (loopStep api cancel appid maxPages targetCount startTime s).isHalt = true ∧
    (loopStep api cancel appid maxPages targetCount startTime s).state.allReviews
      = s.allReviews := by
  refine ⟨?_, ?_⟩ <;>
  · simp only [loopStep, hmp, hcancel, hapi, hsucc, hempty]
    simp only [Bool.false_eq_true, if_false, ne_eq, not_true_eq_false, List.isEmpty_nil,
               if_true]
    split <;> try rfl
    all_goals split <;> try rfl
    all_goals split <;> rfl

/-- API model used by the C2 witness: every page is empty with an
advancing cursor. -/
def apiAlwaysEmptyAdvancing : String → PageOutcome := fun _ =>
  .response ⟨some 1, [], some "Z", none⟩

/-- Witness for C2 amended: a fresh-run state whose next page is empty
with an advancing cursor halts the loop. -/
theorem c2_amended_witness :
    (loopStep apiAlwaysEmptyAdvancing (fun _ => false) 5 none none 0
        (initLoopState (freshInit 0) fsEmpty)).isHalt = true ∧
    (loopStep apiAlwaysEmptyAdvancing (fun _ => false) 5 none none 0
        (initLoopState (freshInit 0) fsEmpty)).state.allReviews
      = (initLoopState (freshInit 0) fsEmpty).allReviews :=
  c2_amended apiAlwaysEmptyAdvancing (fun _ => false) 5 none none 0
    (initLoopState (freshInit 0) fsEmpty) ⟨some 1, [], some "Z", none⟩
    rfl rfl rfl rfl rfl

/-- C8: the resume prologue restores the raw-data filename from the
checkpoint but never restores the in-memory checkpoint filename — the
loop is always entered with checkpoint_filename = None (first conjunct,
a structural fact of initLoopState).  Consequently every subsequent
_save_checkpoint_and_data call made with a restored raw_data_filename
and the unrestored checkpoint filename reaches
os.path.join(TEMP_FOLDER, None) and raises an uncaught TypeError
instead of saving: it returns no names and performs no write event
(second conjunct); and a run resumed from a state with a restored
raw-data filename that must checkpoint on its first page (here: a
transport error) aborts with the crashed exit and returns no data
(third conjunct). -/
theorem c8_resume_checkpoint_filename_never_restored :
    (∀ ist fs0, (initLoopState ist fs0).ckptK = none) ∧
    (∀ (appid : Nat) (revs : List Item) (cursor : String) (st : Nat)
       (tc : Option Nat) (pc : Nat) (tav : Option Nat) (r : FileKey) (fs : FS),
       (saveRun appid revs cursor st tc pc tav (some r) none fs).names = none ∧
       ∀ e ∈ (saveRun appid revs cursor st tc pc tav (some r) none fs).events,
         isRenameEvent e = true) ∧
    (∀ (api : String → PageOutcome) (appid now fuel : Nat) (fs : FS) (r : FileKey)
       (tk : TransportKind),
       (resumeLoad fs appid now).rawK = some r →
       api (resumeLoad fs appid now).cursor = .transportError tk →
       (getAllSteamReviews api (fun _ => false) appid none true fs now
           (fuel + 1)).exit = .crashed ∧
       (getAllSteamReviews api (fun _ => false) appid none true fs now
           (fuel + 1)).finalData = none) := by
  refine ⟨fun ist fs0 => rfl, fun appid revs cursor st tc pc tav r fs => ⟨rfl, ?_⟩, ?_⟩
  · intro e he
    simp only [saveRun] at he
    split at he <;> simp_all [isRenameEvent]
  · intro api appid now fuel fs r tk hraw hapi
    have hstep : ∃ s1, loopStep api (fun _ => false) appid none
        (resumeLoad fs appid now).targetCount (resumeLoad fs appid now).startTime
        (initLoopState (resumeLoad fs appid now) fs) = .halt s1 .crashed := by
      simp only [loopStep, initLoopState, hapi, hraw, saveRun]
      exact ⟨_, rfl⟩
    obtain ⟨s1, hstep⟩ := hstep
    simp only [getAllSteamReviews, if_true, runLoop, hstep]
    exact ⟨trivial, trivial⟩

/-- API model for the C8 witness: every request times out. -/
def apiAlwaysTimeout : String → PageOutcome := fun _ => .transportError .timeout

/-- Filesystem for the C8 witness: a good checkpoint for appid 3 whose
referenced raw-data file exists and holds one review. -/
def fsC8 : FS :=
  ⟨[(⟨3, 0, 0, 1⟩, .good ⟨"CC", some ⟨3, 0, 0, 1⟩, 3, 1, 1, 0⟩)],
   [(⟨3, 0, 0, 1⟩, .good ⟨⟨3, 1, 1, 1, 0⟩, [9]⟩)]⟩

/-- Witness for C8: a concrete save with restored raw name and
unrestored checkpoint name returns no names, and a concrete resumed run
whose first page must checkpoint aborts with the crashed exit. -/
theorem c8_witness :
    (saveRun 3 [9] "Q" 0 none 0 none (some ⟨3, 0, 0, 1⟩) none fsEmpty).names = none ∧
    (getAllSteamReviews apiAlwaysTimeout (fun _ => false) 3 none true fsC8 0 5).exit
      = .crashed ∧
    (getAllSteamReviews apiAlwaysTimeout (fun _ => false) 3 none true fsC8 0 5).finalData
      = none :=
  ⟨(c8_resume_checkpoint_filename_never_restored.2.1 3 [9] "Q" 0 none 0 none
      ⟨3, 0, 0, 1⟩ fsEmpty).1,
   (c8_resume_checkpoint_filename_never_restored.2.2 apiAlwaysTimeout 3 0 4 fsC8
      ⟨3, 0, 0, 1⟩ .timeout (by decide) (by decide)).1,
   (c8_resume_checkpoint_filename_never_restored.2.2 apiAlwaysTimeout 3 0 4 fsC8
      ⟨3, 0, 0, 1⟩ .timeout (by decide) (by decide)).2⟩

/-- C9: when resuming and the checkpoint file selected for the target id
is corrupt (unreadable or unparseable at load time), the run does not
fail: the prologue falls back to a fresh run — sentinel cursor, empty
buffer, the new start timestamp, no raw-data filename, no target — and
the whole invocation behaves exactly as a fresh resume=false invocation
on the same filesystem, fetching from the beginning. -/
theorem c9_corrupt_checkpoint_fresh_fallback (api : String → PageOutcome)
    (cancel : Nat → Bool) (appid : Nat) (maxPages : Option Nat) (now fuel : Nat)
    (fs : FS) (key : FileKey)
    (hfind : findCheckpointKey fs appid = some key)
    (hcorrupt : alistLookup fs.temp key = some .corrupt) :
    resumeLoad fs appid now = freshInit now ∧
    getAllSteamReviews api cancel appid maxPages true fs now fuel =
      getAllSteamReviews api cancel appid maxPages false fs now fuel := by
  have h1 : resumeLoad fs appid now = freshInit now := by
    simp [resumeLoad, hfind, hcorrupt]
  refine ⟨h1, ?_⟩
  simp [getAllSteamReviews, h1]

/-- API model for the C9 witness: a single empty page with no cursor. -/
def apiOneEmptyPage : String → PageOutcome := fun _ =>
  .response ⟨some 1, [], none, none⟩

/-- Filesystem for the C9 witness: one corrupt checkpoint for appid 4. -/
def fsC9 : FS := ⟨[(⟨4, 0, 0, 0⟩, .corrupt)], []⟩

/-- Witness for C9 at a concrete corrupt-checkpoint filesystem. -/
theorem c9_witness :
    resumeLoad fsC9 4 7 = freshInit 7 ∧
    getAllSteamReviews apiOneEmptyPage (fun _ => false) 4 none true fsC9 7 5 =
      getAllSteamReviews apiOneEmptyPage (fun _ => false) 4 none false fsC9 7 5 :=
  c9_corrupt_checkpoint_fresh_fallback apiOneEmptyPage (fun _ => false) 4 none 7 5
    fsC9 ⟨4, 0, 0, 0⟩ (by decide) (by decide)

/-- A one-entry association list is determined by its key list. -/
theorem alist_singleton_of_map_fst {α : Type} {l : List (FileKey × α)} {k : FileKey}
    (h : l.map Prod.fst = [k]) : ∃ v, l = [(k, v)] := by
  match l with
  | [] => simp at h
  | [(a, v)] =>
      simp at h
      exact ⟨v, by rw [h]⟩
  | (a, v) :: (b, w) :: rest => simp at h

/-- Writing into the empty list. -/
theorem alistWrite_nil {α : Type} (k : FileKey) (v : α) :
    alistWrite ([] : List (FileKey × α)) k v = [(k, v)] := rfl

/-- Writing into a one-entry list at its own key replaces the value. -/
theorem alistWrite_singleton_self {α : Type} (k : FileKey) (w v : α) :
    alistWrite [(k, w)] k v = [(k, v)] := by
  simp [alistWrite]

/-- Renaming the only entry of a one-entry list moves it. -/
theorem alistRename_singleton {α : Type} (k k2 : FileKey) (w : α) :
    alistRename [(k, w)] k k2 = [(k2, w)] := by
  simp [alistRename, alistLookup, alistRemove, alistWrite]

/-- The save returns names exactly when the TypeError path is not taken:
names are absent if and only if the raw name is set while the checkpoint
name is not. -/
theorem saveRun_names_eq_none_iff (appid : Nat) (revs : List Item) (cursor : String)
    (st : Nat) (tc : Option Nat) (pc : Nat) (tav : Option Nat)
    (rawK ckptK : Option FileKey) (fs : FS) :
    (saveRun appid revs cursor st tc pc tav rawK ckptK fs).names = none ↔
      (rawK.isSome ∧ ckptK = none) := by
  match rawK with
  | none => simp [saveRun]
  | some r =>
      match ckptK with
      | none => simp [saveRun]
      | some c => simp [saveRun]

/-- A save on a state whose names are consistent (checkpoint name present
whenever the raw name is) returns names. -/
theorem saveRun_names_isSome (appid : Nat) (revs : List Item) (cursor : String)
    (st : Nat) (tc : Option Nat) (pc : Nat) (tav : Option Nat)
    (rawK ckptK : Option FileKey) (fs : FS)
    (h : rawK.isSome → ckptK.isSome) :
    ∃ rk ck, (saveRun appid revs cursor st tc pc tav rawK ckptK fs).names
      = some (rk, ck) := by
  match rawK with
  | none => exact ⟨_, _, rfl⟩
  | some r =>
      match ckptK with
      | none => simp at h
      | some c => exact ⟨_, _, rfl⟩

/-- Applying a list of raw-folder renames leaves the checkpoint folder
untouched. -/
theorem applyEvents_renameRaw_temp (fs : FS) (l : List FsEvent)
    (h : ∀ e ∈ l, ∃ o n2, e = .renameRaw o n2) :
    (applyEvents fs l).temp = fs.temp := by
  induction l generalizing fs with
  | nil => rfl
  | cons e rest ih =>
      obtain ⟨o, n2, rfl⟩ := h e (by simp)
      have := ih (applyEvent fs (.renameRaw o n2)) (fun e2 he2 => h e2 (by simp [he2]))
      rw [applyEvents] at this ⊢
      simp only [List.foldl_cons] at this ⊢
      rw [this]
      rfl

/-- Effect of a normally-returning save on a filesystem whose checkpoint
folder holds exactly the file named by the in-memory checkpoint name
(the single-live-checkpoint discipline the run maintains): afterwards
the checkpoint folder holds exactly the new checkpoint file, whose
payload records the passed cursor, the new raw-data name, and the
accumulated count; and the raw-data folder holds the full review list at
the new raw-data name.  The two returned names always coincide as keys. -/
theorem saveRun_spec (appid : Nat) (revs : List Item) (cursor : String)
    (st : Nat) (tc : Option Nat) (pc : Nat) (tav : Option Nat)
    (rawK ckptK : Option FileKey) (fs : FS) (rk ck : FileKey)
    (hn : (saveRun appid revs cursor st tc pc tav rawK ckptK fs).names = some (rk, ck))
    (htemp : fs.temp.map Prod.fst = ckptK.toList)
    (hiff : rawK.isSome ↔ ckptK.isSome)
    (h4 : ∀ k, rawK = some k → k.appid = appid) :
    rk = ck ∧ ck.appid = appid ∧
    (applyEvents fs (saveRun appid revs cursor st tc pc tav rawK ckptK fs).events).temp
      = [(ck, .good (mkCheckpointData cursor rk appid
            (pyOrNat tc (pyOrNat tav revs.length)) revs.length st))] ∧
    alistLookup (applyEvents fs (saveRun appid revs cursor st tc pc tav
        rawK ckptK fs).events).json rk
      = some (.good (mkRawData appid revs pc
            (pyOrNat tc (pyOrNat tav revs.length)) st)) := by
  match hr : rawK with
  | none =>
      have hck : ckptK = none := by
        cases hc : ckptK with
        | none => rfl
        | some c => rw [hc] at hiff; simp at hiff
      subst hck
      simp only [Option.toList_none, List.map_eq_nil_iff] at htemp
      simp only [saveRun, Option.some.injEq, Prod.mk.injEq] at hn
      obtain ⟨hrk, hck2⟩ := hn
      subst hrk; subst hck2
      refine ⟨rfl, rfl, ?_, ?_⟩
      · simp [saveRun, applyEvents, applyEvent, htemp, alistWrite_nil]
      · simp [saveRun, applyEvents, applyEvent, alistLookup_write_self]
  | some r =>
      match hc : ckptK with
      | none => simp [saveRun] at hn
      | some c =>
          simp only [saveRun, Option.some.injEq, Prod.mk.injEq] at hn
          obtain ⟨hrk, hck2⟩ := hn
          subst hrk; subst hck2
          simp only [Option.toList_some] at htemp
          obtain ⟨v, hv⟩ := alist_singleton_of_map_fst htemp
          have happ : r.appid = appid := h4 r rfl
          have hevents : (saveRun appid revs cursor st tc pc tav (some r) (some c)
              fs).events =
              ((if (alistLookup fs.json r).isSome && r != { r with count := revs.length }
                then [FsEvent.renameRaw r { r with count := revs.length }] else []) ++
               (if (alistLookup fs.temp c).isSome && c != { r with count := revs.length }
                then [FsEvent.renameCkpt c { r with count := revs.length }] else []) ++
               [.writeCkpt { r with count := revs.length }
                  (mkCheckpointData cursor { r with count := revs.length } appid
                    (pyOrNat tc (pyOrNat tav revs.length)) revs.length st),
                .writeRaw { r with count := revs.length }
                  (mkRawData appid revs pc
                    (pyOrNat tc (pyOrNat tav revs.length)) st)]) := rfl
          have htemp1 : (applyEvents fs
              (if (alistLookup fs.json r).isSome && r != { r with count := revs.length }
               then [FsEvent.renameRaw r { r with count := revs.length }] else [])).temp
              = fs.temp := by
            apply applyEvents_renameRaw_temp
            intro e he
            split at he
            · simp only [List.mem_singleton] at he
              exact ⟨r, { r with count := revs.length }, he⟩
            · simp at he
          have htemp2 : (applyEvents (applyEvents fs
              (if (alistLookup fs.json r).isSome && r != { r with count := revs.length }
               then [FsEvent.renameRaw r { r with count := revs.length }] else []))
              (if (alistLookup fs.temp c).isSome && c != { r with count := revs.length }
               then [FsEvent.renameCkpt c { r with count := revs.length }] else [])).temp
              = [({ r with count := revs.length }, v)] := by
            by_cases hcc : c = { r with count := revs.length }
            · have hite : (if (alistLookup fs.temp c).isSome &&
                  c != { r with count := revs.length }
                  then [FsEvent.renameCkpt c { r with count := revs.length }] else [])
                  = [] := by
                rw [hcc]; simp
              rw [hite]
              show (applyEvents fs (if (alistLookup fs.json r).isSome &&
                  r != { r with count := revs.length }
                  then [FsEvent.renameRaw r { r with count := revs.length }] else [])).temp
                = [({ r with count := revs.length }, v)]
              rw [htemp1, hv, hcc]
            · have hlk : alistLookup fs.temp c = some v := by
                rw [hv]; simp [alistLookup]
              have htrue : ((alistLookup fs.temp c).isSome &&
                  (c != { r with count := revs.length })) = true := by
                rw [hlk]; simp [bne, hcc]
              have hite : (if (alistLookup fs.temp c).isSome &&
                  c != { r with count := revs.length }
                  then [FsEvent.renameCkpt c { r with count := revs.length }] else [])
                  = [FsEvent.renameCkpt c { r with count := revs.length }] := by
                rw [htrue]
                rfl
              rw [hite]
              show (applyEvent (applyEvents fs (if (alistLookup fs.json r).isSome &&
                  r != { r with count := revs.length }
                  then [FsEvent.renameRaw r { r with count := revs.length }] else []))
                  (.renameCkpt c { r with count := revs.length })).temp
                = [({ r with count := revs.length }, v)]
              simp only [applyEvent]
              rw [htemp1, hv, alistRename_singleton]
          refine ⟨rfl, happ, ?_, ?_⟩
          · rw [hevents, applyEvents_append, applyEvents_append]
            show (applyEvent (applyEvent _ (FsEvent.writeCkpt _ _))
                (FsEvent.writeRaw _ _)).temp = _
            simp only [applyEvent]
            rw [htemp2, alistWrite_singleton_self]
          · rw [hevents, applyEvents_append, applyEvents_append]
            show alistLookup (applyEvent (applyEvent _ (FsEvent.writeCkpt _ _))
                (FsEvent.writeRaw _ _)).json _ = _
            simp only [applyEvent]
            rw [alistLookup_write_self]

/-- Step shape: transport error, save returns names. -/
theorem step_transport_some (api : String → PageOutcome) (appid : Nat)
    (tc : Option Nat) (st : Nat) (s : LoopState) (k : TransportKind)
    (rk ck : FileKey) (hapi : api s.cursor = .transportError k)
    (hn : (saveRun appid s.allReviews s.cursor st tc s.pageCount s.totalAvail
        s.rawK s.ckptK s.fs).names = some (rk, ck)) :
    loopStep api (fun _ => false) appid none tc st s =
      .halt { s with fs := (applyEvents s.fs (saveRun appid s.allReviews s.cursor st tc s.pageCount s.totalAvail s.rawK s.ckptK s.fs).events), rawK := some rk, ckptK := some ck, iter := s.iter + 1 }
        (.transportFail k) := by
  simp [loopStep, hapi, hn]

/-- Step shape: transport error, save raises (TypeError). -/
theorem step_transport_none (api : String → PageOutcome) (appid : Nat)
    (tc : Option Nat) (st : Nat) (s : LoopState) (k : TransportKind)
    (hapi : api s.cursor = .transportError k)
    (hn : (saveRun appid s.allReviews s.cursor st tc s.pageCount s.totalAvail
        s.rawK s.ckptK s.fs).names = none) :
    loopStep api (fun _ => false) appid none tc st s =
      .halt { s with fs := (applyEvents s.fs (saveRun appid s.allReviews s.cursor st tc s.pageCount s.totalAvail s.rawK s.ckptK s.fs).events), iter := s.iter + 1 } .crashed := by
  simp [loopStep, hapi, hn]

/-- Step shape: API-reported failure. -/
theorem step_apiFail (api : String → PageOutcome) (appid : Nat)
    (tc : Option Nat) (st : Nat) (s : LoopState) (d : SteamResponse)
    (hapi : api s.cursor = .response d) (hsucc : d.success ≠ some 1) :
    loopStep api (fun _ => false) appid none tc st s =
      .halt { s with iter := s.iter + 1 } .apiFail := by
  simp [loopStep, hapi, if_pos hsucc]

/-- Step shape: empty page with no known total, save returns names. -/
theorem step_empty_some (api : String → PageOutcome) (appid : Nat)
    (tc : Option Nat) (st : Nat) (s : LoopState) (d : SteamResponse)
    (rk ck : FileKey) (hapi : api s.cursor = .response d)
    (hsucc : d.success = some 1) (hempty : d.reviews = [])
    (hst : s.totalAvail = none) (hsq : d.querySummary = none)
    (hn : (saveRun appid s.allReviews s.cursor st tc s.pageCount none
        s.rawK s.ckptK s.fs).names = some (rk, ck)) :
    loopStep api (fun _ => false) appid none tc st s =
      .halt { s with fs := (applyEvents s.fs (saveRun appid s.allReviews s.cursor st tc s.pageCount none s.rawK s.ckptK s.fs).events), rawK := some rk, ckptK := some ck, totalAvail := none, iter := s.iter + 1 } .emptyStop := by
  simp [loopStep, hapi, hsucc, hempty, hst, hsq, hn, natTruthy]

/-- Step shape: empty page with no known total, save raises. -/
theorem step_empty_none (api : String → PageOutcome) (appid : Nat)
    (tc : Option Nat) (st : Nat) (s : LoopState) (d : SteamResponse)
    (hapi : api s.cursor = .response d)
    (hsucc : d.success = some 1) (hempty : d.reviews = [])
    (hst : s.totalAvail = none) (hsq : d.querySummary = none)
    (hn : (saveRun appid s.allReviews s.cursor st tc s.pageCount none
        s.rawK s.ckptK s.fs).names = none) :
    loopStep api (fun _ => false) appid none tc st s =
      .halt { s with fs := (applyEvents s.fs (saveRun appid s.allReviews s.cursor st tc s.pageCount none s.rawK s.ckptK s.fs).events), totalAvail := none, iter := s.iter + 1 } .crashed := by
  simp [loopStep, hapi, hsucc, hempty, hst, hsq, hn, natTruthy]

/-- Step shape: nonempty page, no known total, cursor did not advance. -/
theorem step_stagnant (api : String → PageOutcome) (appid : Nat)
    (tc : Option Nat) (st : Nat) (s : LoopState) (d : SteamResponse)
    (hapi : api s.cursor = .response d) (hsucc : d.success = some 1)
    (hne : d.reviews.isEmpty = false)
    (hst : s.totalAvail = none) (hsq : d.querySummary = none)
    (hcur : (strTruthy d.cursor && (d.cursor.getD "" != s.cursor)) = false) :
    loopStep api (fun _ => false) appid none tc st s =
      .halt { s with allReviews := s.allReviews ++ d.reviews, pageCount := s.pageCount + 1, totalAvail := none, iter := s.iter + 1 } .noNewCursor := by
  simp [loopStep, hapi, hsucc, hne, hst, hsq, hcur, natTruthy]

/-- Step shape: nonempty page, no known total, cursor advanced, not a
checkpoint-interval page. -/
theorem step_advance_nosave (api : String → PageOutcome) (appid : Nat)
    (tc : Option Nat) (st : Nat) (s : LoopState) (d : SteamResponse)
    (hapi : api s.cursor = .response d) (hsucc : d.success = some 1)
    (hne : d.reviews.isEmpty = false)
    (hst : s.totalAvail = none) (hsq : d.querySummary = none)
    (hcur : (strTruthy d.cursor && (d.cursor.getD "" != s.cursor)) = true)
    (hint : ¬ (s.pageCount + 1) % 50 = 0) :
    loopStep api (fun _ => false) appid none tc st s =
      .cont { s with allReviews := s.allReviews ++ d.reviews, cursor := d.cursor.getD "", pageCount := s.pageCount + 1, totalAvail := none, iter := s.iter + 1 } := by
  simp [loopStep, hapi, hsucc, hne, hst, hsq, hcur, hint, natTruthy]

/-- Step shape: nonempty page, no known total, cursor advanced, interval
checkpoint whose save returns names. -/
theorem step_advance_save_some (api : String → PageOutcome) (appid : Nat)
    (tc : Option Nat) (st : Nat) (s : LoopState) (d : SteamResponse)
    (rk ck : FileKey)
    (hapi : api s.cursor = .response d) (hsucc : d.success = some 1)
    (hne : d.reviews.isEmpty = false)
    (hst : s.totalAvail = none) (hsq : d.querySummary = none)
    (hcur : (strTruthy d.cursor && (d.cursor.getD "" != s.cursor)) = true)
    (hint : (s.pageCount + 1) % 50 = 0)
    (hn : (saveRun appid (s.allReviews ++ d.reviews) (d.cursor.getD "") st tc
        (s.pageCount + 1) none s.rawK s.ckptK s.fs).names = some (rk, ck)) :
    loopStep api (fun _ => false) appid none tc st s =
      .cont { s with allReviews := s.allReviews ++ d.reviews, cursor := d.cursor.getD "", pageCount := s.pageCount + 1, fs := (applyEvents s.fs (saveRun appid (s.allReviews ++ d.reviews) (d.cursor.getD "") st tc (s.pageCount + 1) none s.rawK s.ckptK s.fs).events), rawK := some rk, ckptK := some ck, totalAvail := none, iter := s.iter + 1 } := by
  simp [loopStep, hapi, hsucc, hne, hst, hsq, hcur, hint, hn, natTruthy]

/-- Step shape: nonempty page, no known total, cursor advanced, interval
checkpoint whose save raises. -/
theorem step_advance_save_none (api : String → PageOutcome) (appid : Nat)
    (tc : Option Nat) (st : Nat) (s : LoopState) (d : SteamResponse)
    (hapi : api s.cursor = .response d) (hsucc : d.success = some 1)
    (hne : d.reviews.isEmpty = false)
    (hst : s.totalAvail = none) (hsq : d.querySummary = none)
    (hcur : (strTruthy d.cursor && (d.cursor.getD "" != s.cursor)) = true)
    (hint : (s.pageCount + 1) % 50 = 0)
    (hn : (saveRun appid (s.allReviews ++ d.reviews) (d.cursor.getD "") st tc
        (s.pageCount + 1) none s.rawK s.ckptK s.fs).names = none) :
    loopStep api (fun _ => false) appid none tc st s =
      .halt { s with allReviews := s.allReviews ++ d.reviews, cursor := d.cursor.getD "", pageCount := s.pageCount + 1, fs := (applyEvents s.fs (saveRun appid (s.allReviews ++ d.reviews) (d.cursor.getD "") st tc (s.pageCount + 1) none s.rawK s.ckptK s.fs).events), totalAvail := none, iter := s.iter + 1 } .crashed := by
  simp [loopStep, hapi, hsucc, hne, hst, hsq, hcur, hint, hn, natTruthy]

/-- Step shape: cancellation observed at the top of the iteration (for a
general cancel flag), save returns names. -/
theorem step_cancel_some (api : String → PageOutcome) (g : Nat → Bool)
    (appid : Nat) (tc : Option Nat) (st : Nat) (s : LoopState)
    (rk ck : FileKey) (hg : g s.iter = true)
    (hn : (saveRun appid s.allReviews s.cursor st tc s.pageCount s.totalAvail
        s.rawK s.ckptK s.fs).names = some (rk, ck)) :
    loopStep api g appid none tc st s =
      .halt { s with fs := (applyEvents s.fs (saveRun appid s.allReviews s.cursor st tc s.pageCount s.totalAvail s.rawK s.ckptK s.fs).events), iter := s.iter + 1 } .cancelled := by
  simp [loopStep, hg, hn]

/-- Step shape: cancellation observed, save raises. -/
theorem step_cancel_none (api : String → PageOutcome) (g : Nat → Bool)
    (appid : Nat) (tc : Option Nat) (st : Nat) (s : LoopState)
    (hg : g s.iter = true)
    (hn : (saveRun appid s.allReviews s.cursor st tc s.pageCount s.totalAvail
        s.rawK s.ckptK s.fs).names = none) :
    loopStep api g appid none tc st s =
      .halt { s with fs := (applyEvents s.fs (saveRun appid s.allReviews s.cursor st tc s.pageCount s.totalAvail s.rawK s.ckptK s.fs).events), iter := s.iter + 1 } .crashed := by
  simp [loopStep, hg, hn]

/-- A continuing iteration implies the cancellation flag read false at
its start. -/
theorem cont_cancel_false (api : String → PageOutcome) (g : Nat → Bool)
    (appid : Nat) (mp tc : Option Nat) (st : Nat) (s s1 : LoopState)
    (h : loopStep api g appid mp tc st s = .cont s1) : g s.iter = false := by
  by_contra hc
  rw [Bool.not_eq_false] at hc
  simp only [loopStep, hc] at h
  split at h <;> simp at h

/-- Inversion: a Cancelled halt can only come from the cancellation
branch, its save returned names, and the final state is the input state
with the save applied. -/
theorem halt_cancelled_inv (api : String → PageOutcome) (g : Nat → Bool)
    (appid : Nat) (tc : Option Nat) (st : Nat) (s sfin : LoopState)
    (h : loopStep api g appid none tc st s = .halt sfin .cancelled) :
    g s.iter = true ∧
    (∃ rk ck, (saveRun appid s.allReviews s.cursor st tc s.pageCount
        s.totalAvail s.rawK s.ckptK s.fs).names = some (rk, ck)) ∧
    sfin = { s with fs := (applyEvents s.fs (saveRun appid s.allReviews s.cursor st tc s.pageCount s.totalAvail s.rawK s.ckptK s.fs).events), iter := s.iter + 1 } := by
  by_cases hg : g s.iter = true
  · rcases hn : (saveRun appid s.allReviews s.cursor st tc s.pageCount
        s.totalAvail s.rawK s.ckptK s.fs).names with _ | ⟨rk, ck⟩
    · rw [step_cancel_none api g appid tc st s hg hn] at h
      simp at h
    · rw [step_cancel_some api g appid tc st s rk ck hg hn] at h
      simp only [StepRes.halt.injEq] at h
      exact ⟨hg, ⟨rk, ck, rfl⟩, h.1.symm⟩
  · exfalso
    rw [Bool.not_eq_true] at hg
    rcases hd : api s.cursor with k | d <;> simp only [loopStep, hg, hd] at h
    · rcases hn : (saveRun appid s.allReviews s.cursor st tc s.pageCount
          s.totalAvail s.rawK s.ckptK s.fs).names with _ | ⟨rk, ck⟩ <;>
        rw [hn] at h <;> simp at h
    · repeat first | (split at h) | (simp at h)

/-- More fuel does not change a run that already halted. -/
theorem runLoop_mono (api : String → PageOutcome) (cancel : Nat → Bool)
    (appid : Nat) (mp tc : Option Nat) (st : Nat) (fuel : Nat) :
    ∀ (fuel2 : Nat) (s : LoopState) (p : LoopState × LoopExit),
    runLoop api cancel appid mp tc st fuel s = p → p.2 ≠ .fuelOut →
    fuel ≤ fuel2 → runLoop api cancel appid mp tc st fuel2 s = p := by
  induction fuel with
  | zero =>
      intro fuel2 s p h hne _
      rw [runLoop] at h
      rw [← h] at hne
      simp at hne
  | succ f ih =>
      intro fuel2 s p h hne hle
      obtain ⟨f2, rfl⟩ : ∃ f2, fuel2 = f2 + 1 := ⟨fuel2 - 1, by omega⟩
      rw [runLoop] at h ⊢
      cases hstep : loopStep api cancel appid mp tc st s with
      | cont s1 =>
          rw [hstep] at h
          exact ih f2 s1 p h hne (by omega)
      | halt s1 e =>
          rw [hstep] at h
          exact h

/-- Two halting runs from the same state agree. -/
theorem runLoop_det (api : String → PageOutcome) (cancel : Nat → Bool)
    (appid : Nat) (mp tc : Option Nat) (st : Nat) (f1 f2 : Nat) (s : LoopState)
    (p q : LoopState × LoopExit)
    (h1 : runLoop api cancel appid mp tc st f1 s = p) (hp : p.2 ≠ .fuelOut)
    (h2 : runLoop api cancel appid mp tc st f2 s = q) (hq : q.2 ≠ .fuelOut) :
    p = q := by
  have e1 := runLoop_mono api cancel appid mp tc st f1 (max f1 f2) s p h1 hp
    (le_max_left f1 f2)
  have e2 := runLoop_mono api cancel appid mp tc st f2 (max f1 f2) s q h2 hq
    (le_max_right f1 f2)
  rw [e1] at e2
  exact e2

/-- The step function reads the cancellation flag only at the current
iteration index. -/
theorem loopStep_cancel_congr (api : String → PageOutcome) (g1 g2 : Nat → Bool)
    (appid : Nat) (mp tc : Option Nat) (st : Nat) (s : LoopState)
    (h : g1 s.iter = g2 s.iter) :
    loopStep api g1 appid mp tc st s = loopStep api g2 appid mp tc st s := by
  simp only [loopStep, h]

/-- n continuing steps lead from one loop state to another. -/
inductive ReachesN (api : String → PageOutcome) (cancel : Nat → Bool)
    (appid : Nat) (mp tc : Option Nat) (st : Nat) :
    Nat → LoopState → LoopState → Prop where
  | refl (s : LoopState) : ReachesN api cancel appid mp tc st 0 s s
  | step {s s1 u : LoopState} {n : Nat}
      (h : loopStep api cancel appid mp tc st s = .cont s1)
      (hr : ReachesN api cancel appid mp tc st n s1 u) :
      ReachesN api cancel appid mp tc st (n + 1) s u

/-- A run decomposes across an initial stretch of continuing steps. -/
theorem runLoop_reaches (api : String → PageOutcome) (cancel : Nat → Bool)
    (appid : Nat) (mp tc : Option Nat) (st : Nat) {n : Nat} {s m : LoopState}
    (h : ReachesN api cancel appid mp tc st n s m) (f : Nat) :
    runLoop api cancel appid mp tc st (n + f) s =
      runLoop api cancel appid mp tc st f m := by
  induction h with
  | refl s => simp
  | step hstep hr ih =>
      rw [Nat.add_right_comm]
      rw [runLoop, hstep]
      exact ih

/-- A run that ends Cancelled is a stretch of continuing steps (that the
never-cancelled run also takes) followed by the cancellation halt. -/
theorem cancelled_decomp (api : String → PageOutcome) (g : Nat → Bool)
    (appid : Nat) (tc : Option Nat) (st : Nat) :
    ∀ (fuel : Nat) (s sfin : LoopState),
    runLoop api g appid none tc st fuel s = (sfin, .cancelled) →
    ∃ n m, n + 1 ≤ fuel ∧
      ReachesN api (fun _ => false) appid none tc st n s m ∧
      loopStep api g appid none tc st m = .halt sfin .cancelled := by
  intro fuel
  induction fuel with
  | zero =>
      intro s sfin h
      rw [runLoop] at h
      simp at h
  | succ f ih =>
      intro s sfin h
      rw [runLoop] at h
      cases hstep : loopStep api g appid none tc st s with
      | cont s1 =>
          rw [hstep] at h
          obtain ⟨n, m, hn, hr, hhalt⟩ := ih s1 sfin h
          have hg : g s.iter = false :=
            cont_cancel_false api g appid none tc st s s1 hstep
          have hstep2 : loopStep api (fun _ => false) appid none tc st s
              = .cont s1 := by
            rw [← hstep]
            exact (loopStep_cancel_congr api g (fun _ => false) appid none tc st s
              (by rw [hg])).symm
          exact ⟨n + 1, m, by omega, ReachesN.step hstep2 hr, hhalt⟩
      | halt s1 e =>
          rw [hstep] at h
          simp only [Prod.mk.injEq] at h
          obtain ⟨hs1, he⟩ := h
          subst hs1; subst he
          exact ⟨0, s, by omega, ReachesN.refl s, hstep⟩

/-- Run invariant maintained by fresh runs: the checkpoint folder holds
exactly the file named by the in-memory checkpoint name, that name is
set exactly when the raw name is, generated raw names carry the target
appid, and (against an api that never reports a summary) the
total-available count stays unknown. -/
def StInv (appid : Nat) (s : LoopState) : Prop :=
  s.fs.temp.map Prod.fst = s.ckptK.toList ∧
  (s.rawK.isSome ↔ s.ckptK.isSome) ∧
  (∀ k, s.rawK = some k → k.appid = appid) ∧
  s.totalAvail = none

/-- One continuing step of a never-cancelled run preserves the run
invariant, provided the api never reports a query summary. -/
theorem stinv_preserve (api : String → PageOutcome)
    (hsum : ∀ c d2, api c = .response d2 → d2.querySummary = none)
    (appid : Nat) (tc : Option Nat) (st : Nat) (s s1 : LoopState)
    (hstep : loopStep api (fun _ => false) appid none tc st s = .cont s1)
    (hinv : StInv appid s) : StInv appid s1 := by
  obtain ⟨h1, h2, h3, h4⟩ := hinv
  rcases hd : api s.cursor with k | d
  · rcases hn : (saveRun appid s.allReviews s.cursor st tc s.pageCount
        s.totalAvail s.rawK s.ckptK s.fs).names with _ | ⟨rk, ck⟩
    · rw [step_transport_none api appid tc st s k hd hn] at hstep
      simp at hstep
    · rw [step_transport_some api appid tc st s k rk ck hd hn] at hstep
      simp at hstep
  · by_cases hsucc : d.success = some 1
    · have hsq : d.querySummary = none := hsum _ _ hd
      by_cases hemp : d.reviews.isEmpty = true
      · have hempty : d.reviews = [] := by
          cases hrev : d.reviews with
          | nil => rfl
          | cons a l => rw [hrev] at hemp; simp at hemp
        rcases hn : (saveRun appid s.allReviews s.cursor st tc s.pageCount
            none s.rawK s.ckptK s.fs).names with _ | ⟨rk, ck⟩
        · rw [step_empty_none api appid tc st s d hd hsucc hempty h4 hsq hn] at hstep
          simp at hstep
        · rw [step_empty_some api appid tc st s d rk ck hd hsucc hempty h4 hsq hn]
            at hstep
          simp at hstep
      · have hne : d.reviews.isEmpty = false := by
          rw [Bool.not_eq_true] at hemp
          exact hemp
        by_cases hcur : (strTruthy d.cursor && (d.cursor.getD "" != s.cursor)) = true
        · by_cases hint : (s.pageCount + 1) % 50 = 0
          · rcases hn : (saveRun appid (s.allReviews ++ d.reviews)
                (d.cursor.getD "") st tc (s.pageCount + 1) none
                s.rawK s.ckptK s.fs).names with _ | ⟨rk, ck⟩
            · rw [step_advance_save_none api appid tc st s d hd hsucc hne h4 hsq
                  hcur hint hn] at hstep
              simp at hstep
            · rw [step_advance_save_some api appid tc st s d rk ck hd hsucc hne h4
                  hsq hcur hint hn] at hstep
              simp only [StepRes.cont.injEq] at hstep
              subst hstep
              obtain ⟨hrc, hca, htemp2, hjson⟩ := saveRun_spec appid
                (s.allReviews ++ d.reviews) (d.cursor.getD "") st tc
                (s.pageCount + 1) none s.rawK s.ckptK s.fs rk ck hn h1 h2 h3
              refine ⟨?_, by simp, ?_, rfl⟩
              · show (applyEvents s.fs _).temp.map Prod.fst = (some ck).toList
                rw [htemp2]
                simp
              · intro k2 hk2
                simp only [Option.some.injEq] at hk2
                rw [← hk2, hrc]
                exact hca
          · rw [step_advance_nosave api appid tc st s d hd hsucc hne h4 hsq
                hcur hint] at hstep
            simp only [StepRes.cont.injEq] at hstep
            subst hstep
            exact ⟨h1, h2, h3, rfl⟩
        · have hcur2 : (strTruthy d.cursor && (d.cursor.getD "" != s.cursor))
              = false := by
            rw [Bool.not_eq_true] at hcur
            exact hcur
          rw [step_stagnant api appid tc st s d hd hsucc hne h4 hsq hcur2] at hstep
          simp at hstep
    · rw [step_apiFail api appid tc st s d hd hsucc] at hstep
      simp at hstep

/-- The run invariant holds along any stretch of continuing steps. -/
theorem stinv_reaches (api : String → PageOutcome)
    (hsum : ∀ c d2, api c = .response d2 → d2.querySummary = none)
    (appid : Nat) (tc : Option Nat) (st : Nat) {n : Nat} {s m : LoopState}
    (h : ReachesN api (fun _ => false) appid none tc st n s m)
    (hinv : StInv appid s) : StInv appid m := by
  induction h with
  | refl s => exact hinv
  | step hstep hr ih =>
      exact ih (stinv_preserve api hsum appid tc st _ _ hstep hinv)

/-- One unfolding of the loop at a halting step. -/
theorem runLoop_succ_halt {api : String → PageOutcome} {cancel : Nat → Bool}
    {appid : Nat} {mp tc : Option Nat} {st : Nat} (f : Nat) {t t1 : LoopState}
    {e : LoopExit}
    (hstep : loopStep api cancel appid mp tc st t = .halt t1 e) :
    runLoop api cancel appid mp tc st (f + 1) t = (t1, e) := by
  rw [runLoop, hstep]

/-- One unfolding of the loop at a continuing step. -/
theorem runLoop_succ_cont {api : String → PageOutcome} {cancel : Nat → Bool}
    {appid : Nat} {mp tc : Option Nat} {st : Nat} (f : Nat) {t t2 : LoopState}
    (hstep : loopStep api cancel appid mp tc st t = .cont t2) :
    runLoop api cancel appid mp tc st (f + 1) t =
      runLoop api cancel appid mp tc st f t2 := by
  rw [runLoop, hstep]

/-- Lockstep simulation: two never-cancelled runs against an api that
never reports a query summary, started from states with the same review
buffer and cursor and no known total, produce the same exit and the same
final review list — regardless of their page counters, filenames,
filesystems, target counts and start times — provided the leading run
neither crashes nor runs out of fuel and the trailing state keeps a
checkpoint name whenever it has a raw name (so its saves return). -/
theorem lockstep (api : String → PageOutcome)
    (hsum : ∀ c d2, api c = .response d2 → d2.querySummary = none)
    (appid : Nat) (tc1 tc2 : Option Nat) (st1 st2 : Nat) :
    ∀ (fuel : Nat) (s t : LoopState),
    s.allReviews = t.allReviews → s.cursor = t.cursor →
    s.totalAvail = none → t.totalAvail = none →
    (t.rawK.isSome → t.ckptK.isSome) →
    ∀ (s1 : LoopState) (e : LoopExit),
    runLoop api (fun _ => false) appid none tc1 st1 fuel s = (s1, e) →
    e ≠ .crashed → e ≠ .fuelOut →
    ∃ t1, runLoop api (fun _ => false) appid none tc2 st2 fuel t = (t1, e) ∧
      t1.allReviews = s1.allReviews := by
  intro fuel
  induction fuel with
  | zero =>
      intro s t _ _ _ _ _ s1 e h _ hfo
      rw [runLoop] at h
      simp only [Prod.mk.injEq] at h
      exact absurd h.2.symm hfo
  | succ f ih =>
      intro s t hrev hcur hst htt hsv s1 e h hcr hfo
      rw [runLoop] at h
      have hd2 : ∀ x, api s.cursor = x → api t.cursor = x := by
        intro x hx
        rw [← hcur]
        exact hx
      rcases hd : api s.cursor with k | d
      · -- transport error on this page
        rcases hn : (saveRun appid s.allReviews s.cursor st1 tc1 s.pageCount
            s.totalAvail s.rawK s.ckptK s.fs).names with _ | ⟨rk, ck⟩
        · rw [step_transport_none api appid tc1 st1 s k hd hn] at h
          simp only [Prod.mk.injEq] at h
          exact absurd h.2.symm hcr
        · rw [step_transport_some api appid tc1 st1 s k rk ck hd hn] at h
          simp only [Prod.mk.injEq] at h
          obtain ⟨hs1, he⟩ := h
          subst he
          obtain ⟨rk2, ck2, hn2⟩ := saveRun_names_isSome appid t.allReviews
            t.cursor st2 tc2 t.pageCount t.totalAvail t.rawK t.ckptK t.fs hsv
          refine ⟨_, runLoop_succ_halt f (step_transport_some api appid tc2 st2
            t k rk2 ck2 (hd2 _ hd) hn2), ?_⟩
          rw [← hs1]
          exact hrev.symm
      · have hsq : d.querySummary = none := hsum _ _ hd
        by_cases hsucc : d.success = some 1
        · by_cases hemp : d.reviews.isEmpty = true
          · have hempty : d.reviews = [] := by
              cases hrv : d.reviews with
              | nil => rfl
              | cons a l => rw [hrv] at hemp; simp at hemp
            rcases hn : (saveRun appid s.allReviews s.cursor st1 tc1 s.pageCount
                none s.rawK s.ckptK s.fs).names with _ | ⟨rk, ck⟩
            · rw [step_empty_none api appid tc1 st1 s d hd hsucc hempty hst hsq
                hn] at h
              simp only [Prod.mk.injEq] at h
              exact absurd h.2.symm hcr
            · rw [step_empty_some api appid tc1 st1 s d rk ck hd hsucc hempty hst
                hsq hn] at h
              simp only [Prod.mk.injEq] at h
              obtain ⟨hs1, he⟩ := h
              subst he
              obtain ⟨rk2, ck2, hn2⟩ := saveRun_names_isSome appid t.allReviews
                t.cursor st2 tc2 t.pageCount none t.rawK t.ckptK t.fs hsv
              refine ⟨_, runLoop_succ_halt f (step_empty_some api appid tc2 st2
                t d rk2 ck2 (hd2 _ hd) hsucc hempty htt hsq hn2), ?_⟩
              rw [← hs1]
              exact hrev.symm
          · have hne : d.reviews.isEmpty = false := by
              rw [Bool.not_eq_true] at hemp
              exact hemp
            by_cases hcurb : (strTruthy d.cursor && (d.cursor.getD "" != s.cursor))
                = true
            · have hcurb2 : (strTruthy d.cursor && (d.cursor.getD "" != t.cursor))
                  = true := by
                rw [← hcur]
                exact hcurb
              -- the trailing side continues, saving or not at its own interval
              have tcont : ∃ t2, loopStep api (fun _ => false) appid none tc2 st2
                  t = .cont t2 ∧ t2.allReviews = t.allReviews ++ d.reviews ∧
                  t2.cursor = d.cursor.getD "" ∧ t2.totalAvail = none ∧
                  (t2.rawK.isSome → t2.ckptK.isSome) := by
                by_cases hint2 : (t.pageCount + 1) % 50 = 0
                · obtain ⟨rk2, ck2, hn2⟩ := saveRun_names_isSome appid
                    (t.allReviews ++ d.reviews) (d.cursor.getD "") st2 tc2
                    (t.pageCount + 1) none t.rawK t.ckptK t.fs hsv
                  refine ⟨_, step_advance_save_some api appid tc2 st2 t d rk2 ck2
                    (hd2 _ hd) hsucc hne htt hsq hcurb2 hint2 hn2, rfl, rfl, rfl,
                    ?_⟩
                  intro _
                  simp
                · exact ⟨_, step_advance_nosave api appid tc2 st2 t d
                    (hd2 _ hd) hsucc hne htt hsq hcurb2 hint2, rfl, rfl, rfl, hsv⟩
              obtain ⟨t2, htstep, htrev, htcur, httav, htsv⟩ := tcont
              by_cases hint : (s.pageCount + 1) % 50 = 0
              · rcases hn : (saveRun appid (s.allReviews ++ d.reviews)
                    (d.cursor.getD "") st1 tc1 (s.pageCount + 1) none
                    s.rawK s.ckptK s.fs).names with _ | ⟨rk, ck⟩
                · rw [step_advance_save_none api appid tc1 st1 s d hd hsucc hne
                    hst hsq hcurb hint hn] at h
                  simp only [Prod.mk.injEq] at h
                  exact absurd h.2.symm hcr
                · rw [step_advance_save_some api appid tc1 st1 s d rk ck hd hsucc
                    hne hst hsq hcurb hint hn] at h
                  obtain ⟨t1, hrun, hrev1⟩ := ih _ t2
                    (by simp [htrev, hrev]) (by simp [htcur])
                    (by simp) httav htsv s1 e h hcr hfo
                  refine ⟨t1, ?_, hrev1⟩
                  rw [runLoop_succ_cont f htstep]
                  exact hrun
              · rw [step_advance_nosave api appid tc1 st1 s d hd hsucc hne hst
                  hsq hcurb hint] at h
                obtain ⟨t1, hrun, hrev1⟩ := ih _ t2
                  (by simp [htrev, hrev]) (by simp [htcur])
                  (by simp) httav htsv s1 e h hcr hfo
                refine ⟨t1, ?_, hrev1⟩
                rw [runLoop_succ_cont f htstep]
                exact hrun
            · have hcurb0 : (strTruthy d.cursor && (d.cursor.getD "" != s.cursor))
                  = false := by
                rw [Bool.not_eq_true] at hcurb
                exact hcurb
              have hcurb02 : (strTruthy d.cursor && (d.cursor.getD "" != t.cursor))
                  = false := by
                rw [← hcur]
                exact hcurb0
              rw [step_stagnant api appid tc1 st1 s d hd hsucc hne hst hsq
                hcurb0] at h
              simp only [Prod.mk.injEq] at h
              obtain ⟨hs1, he⟩ := h
              subst he
              refine ⟨_, runLoop_succ_halt f (step_stagnant api appid tc2 st2
                t d (hd2 _ hd) hsucc hne htt hsq hcurb02), ?_⟩
              rw [← hs1]
              simp [hrev]
        · rw [step_apiFail api appid tc1 st1 s d hd hsucc] at h
          simp only [Prod.mk.injEq] at h
          obtain ⟨hs1, he⟩ := h
          subst he
          refine ⟨_, runLoop_succ_halt f (step_apiFail api appid tc2 st2 t d
            (hd2 _ hd) hsucc), ?_⟩
          rw [← hs1]
          exact hrev.symm

/-- Inversion of the get_all_steam_reviews wrapper: the invocation runs
the loop on the initial state built by the prologue, reports the loop
exit, returns the loop state filesystem when cancelled, and on any
completing exit returns final data whose review list is exactly the loop
state review buffer. -/
theorem getAll_inv (api : String → PageOutcome) (cancel : Nat → Bool)
    (appid : Nat) (mp : Option Nat) (resume : Bool) (fs0 : FS) (now fuel : Nat) :
    ∃ s1 e, runLoop api cancel appid mp
        (if resume then resumeLoad fs0 appid now else freshInit now).targetCount
        (if resume then resumeLoad fs0 appid now else freshInit now).startTime
        fuel
        (initLoopState (if resume then resumeLoad fs0 appid now
          else freshInit now) fs0)
        = (s1, e) ∧
      (getAllSteamReviews api cancel appid mp resume fs0 now fuel).exit = e ∧
      (e = .cancelled →
        (getAllSteamReviews api cancel appid mp resume fs0 now fuel).fs = s1.fs) ∧
      (e ≠ .cancelled → e ≠ .crashed → e ≠ .fuelOut →
        ∃ d, (getAllSteamReviews api cancel appid mp resume fs0 now fuel).finalData
            = some d ∧ d.reviews = s1.allReviews) := by
  rcases hp : runLoop api cancel appid mp
      (if resume then resumeLoad fs0 appid now else freshInit now).targetCount
      (if resume then resumeLoad fs0 appid now else freshInit now).startTime
      fuel
      (initLoopState (if resume then resumeLoad fs0 appid now
        else freshInit now) fs0) with ⟨s1, e⟩
  refine ⟨s1, e, rfl, ?_, ?_, ?_⟩ <;> cases e <;> simp [getAllSteamReviews, hp]

/-- C6 amended: the claim holds once the deterministic API is one that
never reports a total-available count (the code does not persist
total_reviews_available in the checkpoint, so a resumed run cannot see a
total that was only reported on the first page — the counterexample) and
the second invocation genuinely completes.  Then: if a run is cancelled
partway (exit Cancelled), and the resume=true invocation on the
filesystem it leaves behind completes (neither cancelled, nor aborted by
the unrestored-checkpoint-filename TypeError, nor out of model fuel),
and the uninterrupted resume=false run terminates within its fuel, the
two final datasets have identical review lists — identical item counts
and identical ordering. -/
theorem c6_amended (api : String → PageOutcome)
    (hsum : ∀ c d2, api c = .response d2 → d2.querySummary = none)
    (appid now k F1 F2 : Nat)
    (hcanc : (getAllSteamReviews api (fun i => decide (k ≤ i)) appid none false
        fsEmpty now F1).exit = .cancelled)
    (hres1 : (getAllSteamReviews api (fun _ => false) appid none true
        (getAllSteamReviews api (fun i => decide (k ≤ i)) appid none false
          fsEmpty now F1).fs now F2).exit ≠ .cancelled)
    (hres2 : (getAllSteamReviews api (fun _ => false) appid none true
        (getAllSteamReviews api (fun i => decide (k ≤ i)) appid none false
          fsEmpty now F1).fs now F2).exit ≠ .crashed)
    (hres3 : (getAllSteamReviews api (fun _ => false) appid none true
        (getAllSteamReviews api (fun i => decide (k ≤ i)) appid none false
          fsEmpty now F1).fs now F2).exit ≠ .fuelOut)
    (hfull : (getAllSteamReviews api (fun _ => false) appid none false fsEmpty
        now F1).exit ≠ .fuelOut) :
    ∃ d d2,
      (getAllSteamReviews api (fun _ => false) appid none true
        (getAllSteamReviews api (fun i => decide (k ≤ i)) appid none false
          fsEmpty now F1).fs now F2).finalData = some d ∧
      (getAllSteamReviews api (fun _ => false) appid none false fsEmpty
        now F1).finalData = some d2 ∧
      d.reviews = d2.reviews := by
  -- invert the cancelled first invocation
  obtain ⟨sfin, ec, hrun_c1, hexit_c1, hfs_c1, _⟩ :=
    getAll_inv api (fun i => decide (k ≤ i)) appid none false fsEmpty now F1
  have hec : ec = .cancelled := hexit_c1.symm.trans hcanc
  subst hec
  have hfsc : (getAllSteamReviews api (fun i => decide (k ≤ i)) appid none false
      fsEmpty now F1).fs = sfin.fs := hfs_c1 rfl
  -- decompose it into never-cancelled steps plus the cancellation halt
  obtain ⟨n, m, hnF, hreach, hhalt⟩ :=
    cancelled_decomp api (fun i => decide (k ≤ i)) appid _ _ F1 _ sfin hrun_c1
  -- run invariant at the cancellation point
  have hinv0 : StInv appid (initLoopState (if false then
      resumeLoad fsEmpty appid now else freshInit now) fsEmpty) := by
    refine ⟨rfl, Iff.rfl, ?_, rfl⟩
    intro k2 hk2
    simp [initLoopState, freshInit] at hk2
  obtain ⟨hinv1, hinv2, hinv3, hinv4⟩ :=
    stinv_reaches api hsum appid _ _ hreach hinv0
  -- the cancellation halt saved a checkpoint from state m
  obtain ⟨hg, ⟨rk, ck, hnames⟩, hsfin⟩ :=
    halt_cancelled_inv api (fun i => decide (k ≤ i)) appid _ _ m sfin hhalt
  obtain ⟨hrc, hca, htempS, hjsonS⟩ := saveRun_spec appid m.allReviews m.cursor
    _ _ m.pageCount m.totalAvail m.rawK m.ckptK m.fs rk ck hnames hinv1 hinv2 hinv3
  have hfs2 : sfin.fs = applyEvents m.fs (saveRun appid m.allReviews m.cursor
      (if false then resumeLoad fsEmpty appid now else freshInit now).startTime
      (if false then resumeLoad fsEmpty appid now else freshInit now).targetCount
      m.pageCount m.totalAvail m.rawK m.ckptK m.fs).events := by
    rw [hsfin]
  -- the resume prologue reloads exactly the cancelled state
  have hfind : findCheckpointKey sfin.fs appid = some ck := by
    rw [hfs2]
    unfold findCheckpointKey
    rw [htempS]
    simp [hca]
  have hload : resumeLoad sfin.fs appid now =
      ⟨m.allReviews, m.cursor, (mkCheckpointData m.cursor rk appid
          (pyOrNat (if false then resumeLoad fsEmpty appid now
            else freshInit now).targetCount
            (pyOrNat m.totalAvail m.allReviews.length))
          m.allReviews.length
          (if false then resumeLoad fsEmpty appid now
            else freshInit now).startTime).startTime,
        some rk,
        some (mkCheckpointData m.cursor rk appid
          (pyOrNat (if false then resumeLoad fsEmpty appid now
            else freshInit now).targetCount
            (pyOrNat m.totalAvail m.allReviews.length))
          m.allReviews.length
          (if false then resumeLoad fsEmpty appid now
            else freshInit now).startTime).targetCount⟩ := by
    rw [resumeLoad, hfind, hfs2, htempS]
    have hj2 := hjsonS
    simp [mkRawData] at hj2
    simp [alistLookup, mkCheckpointData, mkRawData, hj2]
  -- invert the resumed invocation
  obtain ⟨sr, er, hrun_res, hexit_res, _, hdata_res⟩ :=
    getAll_inv api (fun _ => false) appid none true
      (getAllSteamReviews api (fun i => decide (k ≤ i)) appid none false fsEmpty
        now F1).fs now F2
  have her1 : er ≠ .cancelled := fun h => hres1 (hexit_res.trans h)
  have her2 : er ≠ .crashed := fun h => hres2 (hexit_res.trans h)
  have her3 : er ≠ .fuelOut := fun h => hres3 (hexit_res.trans h)
  -- lockstep the resumed run against the cancelled run's final state m
  obtain ⟨t1, hrunm, hrev1⟩ := lockstep api hsum appid _
    (if false then resumeLoad fsEmpty appid now else freshInit now).targetCount _
    (if false then resumeLoad fsEmpty appid now else freshInit now).startTime F2
    (initLoopState (if true then resumeLoad (getAllSteamReviews api
        (fun i => decide (k ≤ i)) appid none false fsEmpty now F1).fs appid now
      else freshInit now)
      (getAllSteamReviews api (fun i => decide (k ≤ i)) appid none false fsEmpty
        now F1).fs) m
    (by simp [initLoopState, hfsc, hload])
    (by simp [initLoopState, hfsc, hload])
    rfl hinv4 (fun hs => hinv2.mp hs) sr er hrun_res her2 her3
  -- invert the uninterrupted invocation and split it at the cancel point
  obtain ⟨sf, ef, hrun_full, hexit_full, _, hdata_full⟩ :=
    getAll_inv api (fun _ => false) appid none false fsEmpty now F1
  have hef : ef ≠ .fuelOut := fun h => hfull (hexit_full.trans h)
  have hsplit := runLoop_reaches api (fun _ => false) appid none
    (if false then resumeLoad fsEmpty appid now else freshInit now).targetCount
    (if false then resumeLoad fsEmpty appid now else freshInit now).startTime
    hreach (F1 - n)
  rw [show n + (F1 - n) = F1 from by omega] at hsplit
  rw [hsplit] at hrun_full
  -- both continuations from m halt and therefore agree
  have hdet := runLoop_det api (fun _ => false) appid none _ _ (F1 - n) F2 m
    (sf, ef) (t1, er) hrun_full hef hrunm her3
  simp only [Prod.mk.injEq] at hdet
  obtain ⟨hsf, hee⟩ := hdet
  obtain ⟨d, hd, hdr⟩ := hdata_res her1 her2 her3
  obtain ⟨d2, hd2, hdr2⟩ := hdata_full (by rw [hee]; exact her1)
    (by rw [hee]; exact her2) hef
  refine ⟨d, d2, hd, hd2, ?_⟩
  rw [hdr, hdr2, hsf]
  exact hrev1.symm

/-- API model for the C6 amended witness: three one-item pages, cursor
stagnating on the third, and no query summary anywhere. -/
def apiNoSummary : String → PageOutcome := fun c =>
  if c = "*" then .response ⟨some 1, [1], some "a", none⟩
  else if c = "a" then .response ⟨some 1, [2], some "b", none⟩
  else .response ⟨some 1, [3], some "b", none⟩

/-- Witness for C6 amended at a concrete summary-free api: cancel after
one page, resume, and compare with the straight run. -/
theorem c6_amended_witness :
    ∃ d d2,
      (getAllSteamReviews apiNoSummary (fun _ => false) 70 none true
        (getAllSteamReviews apiNoSummary (fun i => decide (1 ≤ i)) 70 none false
          fsEmpty 0 10).fs 0 10).finalData = some d ∧
      (getAllSteamReviews apiNoSummary (fun _ => false) 70 none false fsEmpty
        0 10).finalData = some d2 ∧
      d.reviews = d2.reviews :=
  c6_amended apiNoSummary
    (by
      intro c d2 h
      unfold apiNoSummary at h
      split at h
      · injection h with h2
        cases h2
        rfl
      · split at h <;>
        · injection h with h2
          cases h2
          rfl)
    70 0 1 10 10 (by decide) (by decide) (by decide) (by decide) (by decide)

/-- API model for the C7 scenarios: never reached, since the
cancellation flag is observed before any request. -/
def apiNeverQueried : String → PageOutcome := fun _ =>
  .response ⟨some 1, [], none, none⟩

/-- Filesystem for the C7 counterexample: a good checkpoint for appid 9
whose referenced raw-data file exists with one review, so a resume
restores the raw-data filename. -/
def fsC7 : FS :=
  ⟨[(⟨9, 0, 0, 1⟩, .good ⟨"cc", some ⟨9, 0, 0, 1⟩, 9, 1, 1, 0⟩)],
   [(⟨9, 0, 0, 1⟩, .good ⟨⟨9, 1, 1, 1, 0⟩, [5]⟩)]⟩

/-- C7 counterexample: the claim says that WHENEVER the cancellation
flag is observed the Run saves a checkpoint and stops in the Cancelled
state without deleting it.  On a resumed run this is false: the resume
prologue restores raw_data_filename but never checkpoint_filename, so
the cancellation-path save reaches os.path.join(TEMP_FOLDER, None) and
raises an uncaught TypeError — with the flag set before any request on
a run resumed from fsC7, the invocation aborts (exit crashed, no return
value) and writes nothing: the filesystem is returned exactly as it
was, with no new checkpoint reflecting the cancelled state. -/
theorem c7_counterexample :
    getAllSteamReviews apiNeverQueried (fun _ => true) 9 none true fsC7 0 5 =
      { exit := .crashed, finalData := none, fs := fsC7 } := by
  decide

/-- After a normally-returning save, the checkpoint file at the returned
checkpoint name holds exactly the payload recording the passed cursor,
the returned raw-data name and the accumulated count (no filesystem
hypotheses needed: the checkpoint write is the second-to-last event and
the last event does not touch the checkpoint folder). -/
theorem saveRun_ckpt_written (appid : Nat) (revs : List Item) (cursor : String)
    (st : Nat) (tc : Option Nat) (pc : Nat) (tav : Option Nat)
    (rawK ckptK : Option FileKey) (fs : FS) (rk ck : FileKey)
    (hn : (saveRun appid revs cursor st tc pc tav rawK ckptK fs).names
        = some (rk, ck)) :
    alistLookup (applyEvents fs (saveRun appid revs cursor st tc pc tav
        rawK ckptK fs).events).temp ck
      = some (.good (mkCheckpointData cursor rk appid
          (pyOrNat tc (pyOrNat tav revs.length)) revs.length st)) := by
  match hr : rawK with
  | none =>
      simp only [saveRun, Option.some.injEq, Prod.mk.injEq] at hn
      simp [saveRun, applyEvents, applyEvent, ← hn.1, ← hn.2,
            alistLookup_write_self, mkCheckpointData]
  | some oldRaw =>
      match hc : ckptK with
      | none => simp [saveRun] at hn
      | some oldCkpt =>
          simp only [saveRun, Option.some.injEq, Prod.mk.injEq] at hn
          simp only [saveRun]
          rw [applyEvents_append, applyEvents_append]
          simp [applyEvents, applyEvent, ← hn.1, ← hn.2,
                alistLookup_write_self, mkCheckpointData]

/-- C7 amended: the cancellation flag is observed only at the start of
each loop iteration (the step function reads it exactly there, never
mid-request), and when it is observed the Run stops at once.  Whenever
the in-memory checkpoint filename is present if the raw-data filename is
(true of every fresh run; false exactly in the resumed state of the
counterexample), the observation saves a checkpoint — afterwards the
checkpoint folder holds, at the returned name, a checkpoint recording
the current cursor and accumulated count — and the Run halts in the
Cancelled state (first conjunct).  In particular, setting the flag
before any page request on a fresh run returns, for every api without
touching it, a Cancelled run whose surviving, undeleted checkpoint has
accumulated count 0 and the sentinel cursor (second conjunct). -/
theorem c7_amended :
    (∀ (api : String → PageOutcome) (g : Nat → Bool) (appid : Nat)
       (tc : Option Nat) (st : Nat) (s : LoopState),
       g s.iter = true → (s.rawK.isSome → s.ckptK.isSome) →
       ∃ s1 rk ck,
         loopStep api g appid none tc st s = .halt s1 .cancelled ∧
         alistLookup s1.fs.temp ck
           = some (.good (mkCheckpointData s.cursor rk appid
               (pyOrNat tc (pyOrNat s.totalAvail s.allReviews.length))
               s.allReviews.length st))) ∧
    (∀ (api : String → PageOutcome) (fuel : Nat),
       getAllSteamReviews api (fun _ => true) 10 none false fsEmpty 0 (fuel + 1) =
        { exit := .cancelled,
          finalData := none,
          fs := { temp := [(⟨10, 0, 0, 0⟩,
                            .good ⟨"*", some ⟨10, 0, 0, 0⟩, 10, 0, 0, 0⟩)],
                  json := [(⟨10, 0, 0, 0⟩, .good ⟨⟨10, 0, 0, 0, 0⟩, []⟩)] } }) := by
  constructor
  · intro api g appid tc st s hg hsv
    obtain ⟨rk, ck, hn⟩ := saveRun_names_isSome appid s.allReviews s.cursor st tc
      s.pageCount s.totalAvail s.rawK s.ckptK s.fs hsv
    refine ⟨_, rk, ck, step_cancel_some api g appid tc st s rk ck hg hn, ?_⟩
    exact saveRun_ckpt_written appid s.allReviews s.cursor st tc s.pageCount
      s.totalAvail s.rawK s.ckptK s.fs rk ck hn
  · intro api fuel
    rfl

/-- Witness for C7 amended: the flag observed at the very first
iteration of a fresh run saves the count-0, sentinel-cursor checkpoint
and halts Cancelled. -/
theorem c7_amended_witness :
    ∃ s1 rk ck,
      loopStep apiNeverQueried (fun _ => true) 11 none none 0
          (initLoopState (freshInit 0) fsEmpty) = .halt s1 .cancelled ∧
      alistLookup s1.fs.temp ck
        = some (.good (mkCheckpointData
            (initLoopState (freshInit 0) fsEmpty).cursor rk 11
            (pyOrNat none (pyOrNat
              (initLoopState (freshInit 0) fsEmpty).totalAvail
              (initLoopState (freshInit 0) fsEmpty).allReviews.length))
            (initLoopState (freshInit 0) fsEmpty).allReviews.length 0)) :=
  c7_amended.1 apiNeverQueried (fun _ => true) 11 none 0
    (initLoopState (freshInit 0) fsEmpty) (by decide) (by decide)
